import Mathlib

/-!
Verification of the tool-routing / validation pipeline of the
ProductReviewAnalyst repository (src/src/tools/validator.py,
src/src/tools/execute.py, src/src/sentiment_cache_service.py,
src/src/metrics.py, src/app/Analytics_Chat.py).

The Python code is shallowly embedded: Python values flowing through the
pipeline (JSON-shaped router output, tool args) are modelled by the
inductive `PyVal`; Python dicts are association lists with first-match
lookup; Python `str.strip` / `str.lower` are modelled on ASCII whitespace;
machine floats that are only ever carried around (never used for control
flow in the embedded code) are modelled as exact rationals.  Python bools
are identified with the ints 0/1 (in CPython `bool` is a subclass of
`int`, and the embedded code only ever compares or range-checks them).
-/

/-- A Python value as it appears in the router/validator data path:
`None`, `int` (including `bool`, identified with 0/1), `float`
(modelled as an exact rational; the embedded code never branches on a
float), `str`, `list`, `dict` (string-keyed, as produced by JSON). -/
inductive PyVal where
  | none
  | int (n : Int)
  | float (q : ℚ)
  | str (s : String)
  | list (xs : List PyVal)
  | dict (kvs : List (String × PyVal))

/-- A Python `dict` with string keys (JSON object). -/
abbrev PyDict := List (String × PyVal)

/-- `d.get(k)` — first binding wins, `None`/absent distinguished by `Option`. -/
def dictGet (d : PyDict) (k : String) : Option PyVal :=
  (d.find? (fun kv => kv.1 == k)).map (fun kv => kv.2)

/-- `d.get(k, default)`. -/
def dictGetD (d : PyDict) (k : String) (v : PyVal) : PyVal :=
  (dictGet d k).getD v

/-- Python `str.isspace` on the ASCII whitespace characters recognised by
`str.strip()` (space, tab, newline, carriage return, vertical tab, form feed). -/
def pyIsSpace (c : Char) : Bool :=
  c = ' ' || c = '\t' || c = '\n' || c = '\r' || c = Char.ofNat 11 || c = Char.ofNat 12

/-- Python `str.strip()`: drop leading and trailing whitespace. -/
def pyStrip (s : String) : String :=
  String.mk (((s.data.dropWhile pyIsSpace).reverse.dropWhile pyIsSpace).reverse)

/-- Python `str.lower()` (ASCII). -/
def pyLower (s : String) : String :=
  String.mk (s.data.map Char.toLower)

/-! ## src/src/tools/validator.py -/

/-- `ALLOWED_TOOLS` (validator.py lines 5-11). -/
def ALLOWED_TOOLS : List String :=
  ["metrics_top_categories", "sentiment_summary", "rating_distribution",
   "general_query", "compare_categories"]

/-- The valid `query_type` values for `general_query` (validator.py lines 30-35). -/
def GENERAL_QUERY_TYPES : List String :=
  ["count_categories", "list_categories", "category_info", "summary_stats"]

/-- The valid `metric` values (validator.py line 64). -/
def METRICS : List String := ["review_count", "nps", "avg_rating"]

/-- The dict returned by `validate_tool_call`: it always has exactly the keys
`tool`, `args`, `rationale` and (on fallback paths) `fallback_reason`. -/
structure ValidatedCall where
  tool : String
  args : PyDict
  rationale : PyVal
  fallback_reason : Option String

/-- validator.py lines 20-25: wholesale fallback for an unknown tool name or a
non-dict `args`. -/
def fallback_invalid_tool : ValidatedCall :=
  ⟨"general_query", [("query_type", PyVal.str "summary_stats")],
   PyVal.str "fallback_invalid_tool",
   some "I couldn't determine a valid action for that request."⟩

/-- validator.py lines 79-84. -/
def fallback_missing_compare : ValidatedCall :=
  ⟨"metrics_top_categories", [("top_n", PyVal.int 15), ("metric", PyVal.str "review_count")],
   PyVal.str "fallback_missing_compare_categories",
   some "I couldn't identify two valid categories to compare."⟩

/-- validator.py lines 98-103. -/
def fallback_compare_not_allowed : ValidatedCall :=
  ⟨"metrics_top_categories", [("top_n", PyVal.int 15), ("metric", PyVal.str "review_count")],
   PyVal.str "fallback_compare_category_not_allowed",
   some "One or both of the categories you asked to compare aren't available based on your access."⟩

/-- validator.py lines 116-121 (note: no `metric` key in this fallback). -/
def fallback_missing_category : ValidatedCall :=
  ⟨"metrics_top_categories", [("top_n", PyVal.int 15)],
   PyVal.str "fallback_missing_category",
   some "I couldn't identify which category you meant."⟩

/-- validator.py lines 126-131 (note: no `metric` key in this fallback). -/
def fallback_category_not_allowed : ValidatedCall :=
  ⟨"metrics_top_categories", [("top_n", PyVal.int 15)],
   PyVal.str "fallback_category_not_allowed",
   some "That category isn't available based on your access."⟩

/-- validator.py lines 151-156 (unreachable, kept for faithfulness). -/
def fallback_default : ValidatedCall :=
  ⟨"metrics_top_categories", [("top_n", PyVal.int 15), ("metric", PyVal.str "review_count")],
   PyVal.str "fallback_default",
   some "I couldn't safely complete that request, so I showed a general overview instead."⟩

/-- validator.py lines 29-36: `args.get("query_type", "summary_stats")`
followed by the membership check (a hashable non-string is never in the
set).  This is the total model of the returning paths only: on an
unhashable operand (`.list`/`.dict`) the source's set-membership test at
line 30 raises TypeError instead of defaulting — that raise path is
modelled separately by `validate_raises` below, and the `.list`/`.dict`
arms here are never reached on the non-raising domain. -/
def norm_query_type (v : PyVal) : String :=
  match v with
  | .str s => if s ∈ GENERAL_QUERY_TYPES then s else "summary_stats"
  | _ => "summary_stats"

/-- validator.py lines 59-61: `top_n` is kept only if it is an `int` in
`[1, 52]`, otherwise the default 15. -/
def clamp_top_n (v : PyVal) : Int :=
  match v with
  | .int n => if n < 1 ∨ n > 52 then 15 else n
  | _ => 15

/-- validator.py lines 63-65: `metric` membership check.  As with
`norm_query_type`, this models the returning paths only: an unhashable
operand makes the set-membership test at line 64 raise TypeError, which
`validate_raises` below accounts for; the `.list`/`.dict` arms here are
never reached on the non-raising domain. -/
def norm_metric (v : PyVal) : String :=
  match v with
  | .str m => if m ∈ METRICS then m else "review_count"
  | _ => "review_count"

/-- validator.py lines 134-136: `max_reviews` is kept only if it is an `int`
in `[5, 200]`, otherwise the default 30. -/
def clamp_max_reviews (v : PyVal) : Int :=
  match v with
  | .int n => if n < 5 ∨ n > 200 then 30 else n
  | _ => 30

/-- validator.py lines 28-55: the `general_query` branch. -/
def validate_general_query (tc args : PyDict) (allowed_categories : List String) :
    ValidatedCall :=
  let query_type := norm_query_type (dictGetD args "query_type" (PyVal.str "summary_stats"))
  if query_type = "category_info" then
    match dictGet args "category" with
    | some (.str cat) =>
      if pyStrip cat ≠ "" ∧ pyStrip cat ∈ allowed_categories then
        ⟨"general_query",
         [("query_type", PyVal.str "category_info"), ("category", PyVal.str (pyStrip cat))],
         dictGetD tc "rationale" (PyVal.str ""), Option.none⟩
      else
        ⟨"general_query", [("query_type", PyVal.str "summary_stats")],
         dictGetD tc "rationale" (PyVal.str ""),
         some "That category isn't available based on your access, so I'm showing overall summary statistics instead."⟩
    | _ =>
      ⟨"general_query", [("query_type", PyVal.str "summary_stats")],
       dictGetD tc "rationale" (PyVal.str ""),
       some "That category isn't available based on your access, so I'm showing overall summary statistics instead."⟩
  else
    ⟨"general_query", [("query_type", PyVal.str query_type)],
     dictGetD tc "rationale" (PyVal.str ""), Option.none⟩

/-- validator.py lines 58-71: the `metrics_top_categories` branch. -/
def validate_metrics_top (tc args : PyDict) : ValidatedCall :=
  ⟨"metrics_top_categories",
   [("top_n", PyVal.int (clamp_top_n (dictGetD args "top_n" (PyVal.int 15)))),
    ("metric", PyVal.str (norm_metric (dictGetD args "metric" (PyVal.str "review_count"))))],
   dictGetD tc "rationale" (PyVal.str ""), Option.none⟩

/-- validator.py lines 74-109: the `compare_categories` branch.  The checks
run in source order: missing/empty fields, then equality after trimming,
then allowed-set membership. -/
def validate_compare (tc args : PyDict) (allowed_categories : List String) :
    ValidatedCall :=
  match dictGet args "category_a", dictGet args "category_b" with
  | some (.str a0), some (.str b0) =>
    if pyStrip a0 = "" ∨ pyStrip b0 = "" then fallback_missing_compare
    else
      let a := pyStrip a0
      let b := pyStrip b0
      if a = b then
        ⟨"rating_distribution", [("category", PyVal.str a)],
         PyVal.str "fallback_same_category_compare",
         some "You asked to compare the same category with itself, so I showed its rating distribution instead."⟩
      else if a ∉ allowed_categories ∨ b ∉ allowed_categories then
        fallback_compare_not_allowed
      else
        ⟨"compare_categories", [("category_a", PyVal.str a), ("category_b", PyVal.str b)],
         dictGetD tc "rationale" (PyVal.str ""), Option.none⟩
  | _, _ => fallback_missing_compare

/-- validator.py lines 112-148: the `sentiment_summary` / `rating_distribution`
branch (`tool` is one of those two names here). -/
def validate_cat_tool (tool : String) (tc args : PyDict) (allowed_categories : List String) :
    ValidatedCall :=
  match dictGet args "category" with
  | some (.str cat0) =>
    if pyStrip cat0 = "" then fallback_missing_category
    else
      let cat := pyStrip cat0
      if cat ∉ allowed_categories then fallback_category_not_allowed
      else if tool = "sentiment_summary" then
        ⟨tool,
         [("category", PyVal.str cat),
          ("max_reviews", PyVal.int (clamp_max_reviews (dictGetD args "max_reviews" (PyVal.int 30))))],
         dictGetD tc "rationale" (PyVal.str ""), Option.none⟩
      else
        ⟨tool, [("category", PyVal.str cat)],
         dictGetD tc "rationale" (PyVal.str ""), Option.none⟩
  | _ => fallback_missing_category

/-- validator.py lines 14-156, `validate_tool_call`.  The first guard
(lines 18-25) rejects any tool value that is not one of the five
`ALLOWED_TOOLS` strings, and any non-dict `args`; the remaining branches
dispatch on the tool name exactly as the source's chain of `if` statements.

This is the total model of the *returning* behaviour.  The source is not
total: its set-membership tests raise TypeError on unhashable operands —
`tool not in ALLOWED_TOOLS` (line 19) when the tool value is a list/dict,
and the query_type / metric tests (lines 30, 64) likewise.  Those three
raise paths are captured by `validate_raises` below, and
`validate_tool_call_total_or_raise` combines the two into the faithful
fallible function (`Option.none` = uncaught TypeError). -/
def validate_tool_call (tc : PyDict) (allowed_categories : List String) : ValidatedCall :=
  match dictGet tc "tool", dictGetD tc "args" (PyVal.dict []) with
  | some (.str tool), .dict args =>
    if tool ∉ ALLOWED_TOOLS then fallback_invalid_tool
    else if tool = "general_query" then validate_general_query tc args allowed_categories
    else if tool = "metrics_top_categories" then validate_metrics_top tc args
    else if tool = "compare_categories" then validate_compare tc args allowed_categories
    else if tool = "sentiment_summary" ∨ tool = "rating_distribution" then
      validate_cat_tool tool tc args allowed_categories
    else fallback_default
  | _, _ => fallback_invalid_tool

/-- The inputs on which the source's `validate_tool_call` raises TypeError
instead of returning.  In CPython a set-membership test raises on an
unhashable left operand; among the modelled values lists and dicts are
unhashable, everything else (`None`, ints, floats, strings) is hashable.
The three membership tests that can be reached with an attacker-chosen
operand are: `tool not in ALLOWED_TOOLS` (validator.py line 19, evaluated
first on every call), `query_type not in {...}` (line 30, reached only
when the tool is exactly "general_query" and `args` is a dict), and
`metric not in {...}` (line 64, reached only when the tool is exactly
"metrics_top_categories" and `args` is a dict).  Every other test in the
function is an `isinstance` check, a string comparison, or a membership
test whose operand is already known to be a string. -/
def validate_raises (tc : PyDict) : Bool :=
  match dictGetD tc "tool" PyVal.none, dictGetD tc "args" (PyVal.dict []) with
  | .list _, _ => true
  | .dict _, _ => true
  | .str tool, .dict args =>
    if tool = "general_query" then
      match dictGetD args "query_type" (PyVal.str "summary_stats") with
      | .list _ => true
      | .dict _ => true
      | _ => false
    else if tool = "metrics_top_categories" then
      match dictGetD args "metric" (PyVal.str "review_count") with
      | .list _ => true
      | .dict _ => true
      | _ => false
    else false
  | _, _ => false

/-- validator.py lines 14-156 as the fallible function it really is:
`Option.none` models an uncaught TypeError from one of the three
set-membership raise points (`validate_raises`), and on every other input
the source returns exactly what the total model `validate_tool_call`
returns. -/
def validate_tool_call_total_or_raise (tc : PyDict) (allowed_categories : List String) :
    Option ValidatedCall :=
  if validate_raises tc = true then Option.none
  else some (validate_tool_call tc allowed_categories)

/-! ## src/app/Analytics_Chat.py — session view state -/

/-- The four view-state fields tracked across turns (Analytics_Chat.py
lines 121-141 initialize them; `top_n`/`top_metric` live directly in
session state and `rating_dist_category` inside `plot_state`). -/
structure PlotState where
  top_n : Int
  top_metric : String
  compare_pair : Option (String × String)
  rating_dist_category : Option String
deriving DecidableEq

/-- Analytics_Chat.py lines 386-405 ("Plot interactions"): the view-state
update applied after executing a validated call.  The source indexes
`validated["args"]["category"]` (etc.) directly; for validator outputs those
fields are always strings, so the wildcard fallbacks (leave state unchanged)
are dead code kept only to make the embedding total. -/
def apply_plot_interactions (vc : ValidatedCall) (s : PlotState) : PlotState :=
  let s :=
    if vc.tool = "rating_distribution" then
      match dictGet vc.args "category" with
      | some (.str c) => { s with rating_dist_category := some c }
      | _ => s
    else s
  let s :=
    if vc.tool = "metrics_top_categories" then
      let s :=
        match dictGet vc.args "top_n" with
        | some (.int n) => { s with top_n := max 5 (min 50 n) }
        | _ => s
      let s :=
        match dictGet vc.args "metric" with
        | some (.str m) => if m ∈ METRICS then { s with top_metric := m } else s
        | _ => s
      { s with compare_pair := Option.none }
    else s
  if vc.tool = "compare_categories" then
    match dictGet vc.args "category_a", dictGet vc.args "category_b" with
    | some (.str a), some (.str b) =>
      { s with compare_pair := some (a, b), rating_dist_category := some a }
    | _, _ => s
  else s

/-- Analytics_Chat.py lines 38-83, `apply_state_aware_response`: rewrites the
narrative when the just-applied call does not change the captured previous
view state.  As in `apply_plot_interactions`, arg lookups are total here;
the source indexes the fields directly, and validator outputs always carry
them as strings/ints. -/
def apply_state_aware_response (tool : String) (args : PyDict) (prev_state : PlotState)
    (assistant_text : String) : String :=
  if tool = "compare_categories" then
    match dictGet args "category_a", dictGet args "category_b" with
    | some (.str a), some (.str b) =>
      if prev_state.compare_pair = some (a, b) then
        "Still comparing **" ++ a ++ "** vs **" ++ b ++
          "** — no changes needed. Check the chart on the left."
      else assistant_text
    | _, _ => assistant_text
  else if tool = "metrics_top_categories" then
    let prev_metric := prev_state.top_metric
    let prev_top_n := prev_state.top_n
    let new_metric :=
      match dictGet args "metric" with
      | some (.str m) => m
      | _ => prev_metric
    let new_top_n :=
      match dictGet args "top_n" with
      | some (.int n) => n
      | _ => prev_top_n
    let changes : List String :=
      (if new_metric ≠ prev_metric then
        ["ranking by **" ++ new_metric.replace "_" " " ++ "**"] else []) ++
      (if new_top_n ≠ prev_top_n then
        ["showing top **" ++ toString new_top_n ++ "**"] else [])
    if changes ≠ [] then
      "Updated view — now " ++ String.intercalate " and " changes ++
        ". Check the chart on the left."
    else
      "This view is already up to date. Check the chart on the left."
  else if tool = "rating_distribution" then
    match dictGet args "category" with
    | some (.str cat) =>
      if prev_state.rating_dist_category = some cat then
        "Already showing the rating distribution for **" ++ cat ++ "**."
      else assistant_text
    | _ => assistant_text
  else
    assistant_text

/-! ## src/src/metrics.py -/

/-- metrics.py lines 5-20, `compute_nps`, after `pd.to_numeric(..).dropna()`:
the input is the list of valid (non-null) numeric ratings, modelled as exact
rationals; the `NaN` returned on an empty series is modelled as `Option.none`. -/
def compute_nps (ratings : List ℚ) : Option ℚ :=
  if ratings.length = 0 then Option.none
  else
    let promoters := (ratings.filter (fun r => 4 ≤ r)).length
    let detractors := (ratings.filter (fun r => r ≤ 2)).length
    let total := ratings.length
    some (((promoters : ℚ) / (total : ℚ) - (detractors : ℚ) / (total : ℚ)) * 100)

/-! ## src/src/tools/execute.py — the `compare_categories` branch -/

/-- One row of the per-category metrics frame produced by
`category_metrics` (metrics.py lines 23-43).  `avg_rating`/`nps` are `NaN`
for a category whose rows all lack a rating; `NaN` is modelled as `none`. -/
structure MetricsRow where
  category : String
  review_count : Nat
  avg_rating : Option ℚ
  nps : Option ℚ
deriving DecidableEq

/-- `row.iloc[0].to_dict()` as used in execute.py lines 82-83. -/
def metricsRowDict (r : MetricsRow) : PyDict :=
  [("category", PyVal.str r.category),
   ("review_count", PyVal.int r.review_count),
   ("avg_rating", match r.avg_rating with | some q => PyVal.float q | _ => PyVal.none),
   ("nps", match r.nps with | some q => PyVal.float q | _ => PyVal.none)]

/-- execute.py lines 69-84: the `compare_categories` branch of `run_tool`,
parameterized by the current metrics frame `mdf = category_metrics(visible_df)`
(execute.py line 18).  Returns the error payload when either category has no
row, otherwise the side-by-side metrics payload. -/
def run_tool_compare_categories (mdf : List MetricsRow) (a b : String) : PyDict :=
  let row_a := mdf.filter (fun r => r.category == a)
  let row_b := mdf.filter (fun r => r.category == b)
  if row_a.isEmpty || row_b.isEmpty then
    [("error", PyVal.str "one_or_both_categories_not_found"),
     ("category_a", PyVal.str a), ("category_b", PyVal.str b)]
  else
    match row_a, row_b with
    | ra :: _, rb :: _ =>
      [("category_a", PyVal.str a), ("category_b", PyVal.str b),
       ("metrics_a", PyVal.dict (metricsRowDict ra)),
       ("metrics_b", PyVal.dict (metricsRowDict rb))]
    | _, _ =>
      [("error", PyVal.str "one_or_both_categories_not_found"),
       ("category_a", PyVal.str a), ("category_b", PyVal.str b)]

/-- Analytics_Chat.py lines 256-264: at render time, an active compare pair is
dropped when either category has no row in the (display-filtered) metrics
frame: `st.session_state.compare_pair = None  # invalid now`. -/
def resolve_compare_pair (mdf : List MetricsRow) (p : Option (String × String)) :
    Option (String × String) :=
  match p with
  | some (a, b) =>
    if (mdf.filter (fun r => r.category == a)).isEmpty ∨
       (mdf.filter (fun r => r.category == b)).isEmpty then Option.none
    else some (a, b)
  | Option.none => Option.none

/-! ## Dispatch lemmas: how `validate_tool_call` reaches each branch -/

lemma validate_dispatch_metrics (tc args : PyDict) (allowed : List String)
    (htool : dictGet tc "tool" = some (PyVal.str "metrics_top_categories"))
    (hargs : dictGet tc "args" = some (PyVal.dict args)) :
    validate_tool_call tc allowed = validate_metrics_top tc args := by
  unfold validate_tool_call dictGetD
  rw [htool, hargs]
  rfl

lemma validate_dispatch_compare (tc args : PyDict) (allowed : List String)
    (htool : dictGet tc "tool" = some (PyVal.str "compare_categories"))
    (hargs : dictGet tc "args" = some (PyVal.dict args)) :
    validate_tool_call tc allowed = validate_compare tc args allowed := by
  unfold validate_tool_call dictGetD
  rw [htool, hargs]
  rfl

lemma validate_dispatch_general (tc args : PyDict) (allowed : List String)
    (htool : dictGet tc "tool" = some (PyVal.str "general_query"))
    (hargs : dictGet tc "args" = some (PyVal.dict args)) :
    validate_tool_call tc allowed = validate_general_query tc args allowed := by
  unfold validate_tool_call dictGetD
  rw [htool, hargs]
  rfl

lemma validate_dispatch_sentiment (tc args : PyDict) (allowed : List String)
    (htool : dictGet tc "tool" = some (PyVal.str "sentiment_summary"))
    (hargs : dictGet tc "args" = some (PyVal.dict args)) :
    validate_tool_call tc allowed = validate_cat_tool "sentiment_summary" tc args allowed := by
  unfold validate_tool_call dictGetD
  rw [htool, hargs]
  rfl

lemma validate_dispatch_rating (tc args : PyDict) (allowed : List String)
    (htool : dictGet tc "tool" = some (PyVal.str "rating_distribution"))
    (hargs : dictGet tc "args" = some (PyVal.dict args)) :
    validate_tool_call tc allowed = validate_cat_tool "rating_distribution" tc args allowed := by
  unfold validate_tool_call dictGetD
  rw [htool, hargs]
  rfl

/-- A candidate `compare_categories` call, as the router would emit it. -/
def mkCompareTc (a b : String) : PyDict :=
  [("tool", PyVal.str "compare_categories"),
   ("args", PyVal.dict [("category_a", PyVal.str a), ("category_b", PyVal.str b)])]

/-- Characterization of the validator on a two-category compare candidate:
the three checks fire in source order (missing, equality, membership). -/
lemma validate_mkCompare (a b : String) (allowed : List String) :
    validate_tool_call (mkCompareTc a b) allowed =
      (if pyStrip a = "" ∨ pyStrip b = "" then fallback_missing_compare
       else if pyStrip a = pyStrip b then
         ⟨"rating_distribution", [("category", PyVal.str (pyStrip a))],
          PyVal.str "fallback_same_category_compare",
          some "You asked to compare the same category with itself, so I showed its rating distribution instead."⟩
       else if pyStrip a ∉ allowed ∨ pyStrip b ∉ allowed then fallback_compare_not_allowed
       else ⟨"compare_categories",
             [("category_a", PyVal.str (pyStrip a)), ("category_b", PyVal.str (pyStrip b))],
             PyVal.str "", Option.none⟩) := rfl

/-- C4: for a `compare_categories` candidate call, the missing-field check
runs first, then the equality-after-trimming check, then the allowed-set
membership check; a call whose two categories both trim to "Electronics"
yields the validated call `{tool: rating_distribution, args: {category:
"Electronics"}}` for every allowed-category set (the membership check is
never consulted on this path). -/
theorem C4_equal_compare_check_order (allowed : List String) (a b : String)
    (ha : pyStrip a = "Electronics") (hb : pyStrip b = "Electronics") :
    (validate_tool_call (mkCompareTc a b) allowed).tool = "rating_distribution" ∧
    (validate_tool_call (mkCompareTc a b) allowed).args =
      [("category", PyVal.str "Electronics")] := by
  rw [validate_mkCompare, ha, hb, if_neg (by decide), if_pos rfl]
  exact ⟨rfl, rfl⟩

/-- Witness for C4 at `category_a = " Electronics "`, `category_b =
"Electronics"` and an allowed set that does not contain "Electronics". -/
theorem C4_equal_compare_check_order_witness :
    pyStrip " Electronics " = "Electronics" ∧
    (validate_tool_call (mkCompareTc " Electronics " "Electronics") ["Toys"]).tool =
      "rating_distribution" ∧
    (validate_tool_call (mkCompareTc " Electronics " "Electronics") ["Toys"]).args =
      [("category", PyVal.str "Electronics")] :=
  ⟨rfl, C4_equal_compare_check_order ["Toys"] " Electronics " "Electronics" rfl rfl⟩

/-- C8: the validator keeps a `metrics_top_categories` `top_n` argument
exactly when it is an integer in `[1, 52]` and substitutes the default 15
for every out-of-range or non-integer value. -/
theorem C8_top_n_clamping (tc args : PyDict) (allowed : List String) (v : PyVal)
    (htool : dictGet tc "tool" = some (PyVal.str "metrics_top_categories"))
    (hargs : dictGet tc "args" = some (PyVal.dict args))
    (hv : dictGet args "top_n" = some v) :
    (∀ n : Int, v = PyVal.int n → 1 ≤ n → n ≤ 52 →
      dictGet (validate_tool_call tc allowed).args "top_n" = some (PyVal.int n)) ∧
    ((∀ n : Int, 1 ≤ n → n ≤ 52 → v ≠ PyVal.int n) →
      dictGet (validate_tool_call tc allowed).args "top_n" = some (PyVal.int 15)) := by
  have h1 : dictGet (validate_tool_call tc allowed).args "top_n" =
      some (PyVal.int (clamp_top_n v)) := by
    rw [validate_dispatch_metrics tc args allowed htool hargs]
    show some (PyVal.int (clamp_top_n ((dictGet args "top_n").getD (PyVal.int 15)))) = _
    rw [hv]
    rfl
  constructor
  · rintro n rfl h1n h2n
    rw [h1]
    show some (PyVal.int (if n < 1 ∨ n > 52 then 15 else n)) = _
    rw [if_neg (by omega)]
  · intro hout
    rw [h1]
    clear h1 hv
    cases v with
    | int n =>
      show some (PyVal.int (if n < 1 ∨ n > 52 then 15 else n)) = _
      have : n < 1 ∨ n > 52 := by
        by_contra hc
        exact hout n (by omega) (by omega) rfl
      rw [if_pos this]
    | none => rfl
    | float q => rfl
    | str s => rfl
    | list xs => rfl
    | dict kvs => rfl

/-- A candidate `metrics_top_categories` call carrying only `top_n`. -/
def mkTopTc (v : PyVal) : PyDict :=
  [("tool", PyVal.str "metrics_top_categories"),
   ("args", PyVal.dict [("top_n", v)])]

/-- Witness for C8: `top_n = 999 ↦ 15`, `top_n = 0 ↦ 15`, `top_n = 30 ↦ 30`. -/
theorem C8_top_n_clamping_witness :
    dictGet (validate_tool_call (mkTopTc (PyVal.int 999)) []).args "top_n" =
      some (PyVal.int 15) ∧
    dictGet (validate_tool_call (mkTopTc (PyVal.int 0)) []).args "top_n" =
      some (PyVal.int 15) ∧
    dictGet (validate_tool_call (mkTopTc (PyVal.int 30)) []).args "top_n" =
      some (PyVal.int 30) :=
  ⟨(C8_top_n_clamping (mkTopTc (PyVal.int 999)) [("top_n", PyVal.int 999)] []
      (PyVal.int 999) rfl rfl rfl).2
      (fun n h1 h2 he => by injection he with he; omega),
   (C8_top_n_clamping (mkTopTc (PyVal.int 0)) [("top_n", PyVal.int 0)] []
      (PyVal.int 0) rfl rfl rfl).2
      (fun n h1 h2 he => by injection he with he; omega),
   (C8_top_n_clamping (mkTopTc (PyVal.int 30)) [("top_n", PyVal.int 30)] []
      (PyVal.int 30) rfl rfl rfl).1 30 rfl (by omega) (by omega)⟩

/-- C9: on a non-empty list of valid ratings, `compute_nps` returns
(fraction of ratings ≥ 4 minus fraction of ratings ≤ 2) × 100 — rating-3
passives count in the denominator — and the result always lies in
`[-100, 100]`. -/
theorem C9_nps_formula_and_bounds (ratings : List ℚ) (h : ratings ≠ []) :
    compute_nps ratings =
      some ((((ratings.filter (fun r => 4 ≤ r)).length : ℚ) / (ratings.length : ℚ)
        - ((ratings.filter (fun r => r ≤ 2)).length : ℚ) / (ratings.length : ℚ)) * 100) ∧
    ∀ v, compute_nps ratings = some v → -100 ≤ v ∧ v ≤ 100 := by
  have hlen : ratings.length ≠ 0 := by
    simpa using h
  have heq : compute_nps ratings =
      some ((((ratings.filter (fun r => 4 ≤ r)).length : ℚ) / (ratings.length : ℚ)
        - ((ratings.filter (fun r => r ≤ 2)).length : ℚ) / (ratings.length : ℚ)) * 100) := by
    unfold compute_nps
    rw [if_neg hlen]
  refine ⟨heq, fun v hv => ?_⟩
  rw [heq] at hv
  injection hv with hv
  subst hv
  have ht : (0 : ℚ) < (ratings.length : ℚ) := by
    exact_mod_cast Nat.pos_of_ne_zero hlen
  have hp1 : ((ratings.filter (fun r => 4 ≤ r)).length : ℚ) / (ratings.length : ℚ) ≤ 1 :=
    (div_le_one ht).mpr (by exact_mod_cast List.length_filter_le _ _)
  have hd1 : ((ratings.filter (fun r => r ≤ 2)).length : ℚ) / (ratings.length : ℚ) ≤ 1 :=
    (div_le_one ht).mpr (by exact_mod_cast List.length_filter_le _ _)
  have hp0 : (0 : ℚ) ≤ ((ratings.filter (fun r => 4 ≤ r)).length : ℚ) / (ratings.length : ℚ) :=
    div_nonneg (by positivity) ht.le
  have hd0 : (0 : ℚ) ≤ ((ratings.filter (fun r => r ≤ 2)).length : ℚ) / (ratings.length : ℚ) :=
    div_nonneg (by positivity) ht.le
  constructor <;> nlinarith [hp1, hd1, hp0, hd0]

/-- Witness for C9 at ratings `[5, 5, 1, 1, 3]`: promoters 2, detractors 2,
total 5, so the score is exactly 0 and lies in `[-100, 100]`. -/
theorem C9_nps_witness :
    compute_nps [5, 5, 1, 1, 3] = some 0 ∧ (-100 : ℚ) ≤ 0 ∧ (0 : ℚ) ≤ 100 := by
  have hne : ([5, 5, 1, 1, 3] : List ℚ) ≠ [] := by simp
  have h := C9_nps_formula_and_bounds [5, 5, 1, 1, 3] hne
  have h0 : compute_nps [5, 5, 1, 1, 3] = some 0 := by
    rw [h.1]
    norm_num [List.filter]
  exact ⟨h0, (h.2 0 h0).1, (h.2 0 h0).2⟩

/-! ## Enumeration of the validator's possible outputs -/

lemma clamp_top_n_range (v : PyVal) : 1 ≤ clamp_top_n v ∧ clamp_top_n v ≤ 52 := by
  cases v with
  | int n =>
    simp only [clamp_top_n]
    by_cases h : n < 1 ∨ n > 52
    · rw [if_pos h]; exact ⟨by omega, by omega⟩
    · rw [if_neg h]; exact ⟨by omega, by omega⟩
  | none => refine ⟨?_, ?_⟩ <;> simp only [clamp_top_n] <;> omega
  | float q => refine ⟨?_, ?_⟩ <;> simp only [clamp_top_n] <;> omega
  | str s => refine ⟨?_, ?_⟩ <;> simp only [clamp_top_n] <;> omega
  | list xs => refine ⟨?_, ?_⟩ <;> simp only [clamp_top_n] <;> omega
  | dict kvs => refine ⟨?_, ?_⟩ <;> simp only [clamp_top_n] <;> omega

lemma clamp_max_reviews_range (v : PyVal) :
    5 ≤ clamp_max_reviews v ∧ clamp_max_reviews v ≤ 200 := by
  cases v with
  | int n =>
    simp only [clamp_max_reviews]
    by_cases h : n < 5 ∨ n > 200
    · rw [if_pos h]; exact ⟨by omega, by omega⟩
    · rw [if_neg h]; exact ⟨by omega, by omega⟩
  | none => refine ⟨?_, ?_⟩ <;> simp only [clamp_max_reviews] <;> omega
  | float q => refine ⟨?_, ?_⟩ <;> simp only [clamp_max_reviews] <;> omega
  | str s => refine ⟨?_, ?_⟩ <;> simp only [clamp_max_reviews] <;> omega
  | list xs => refine ⟨?_, ?_⟩ <;> simp only [clamp_max_reviews] <;> omega
  | dict kvs => refine ⟨?_, ?_⟩ <;> simp only [clamp_max_reviews] <;> omega

lemma norm_metric_mem (v : PyVal) : norm_metric v ∈ METRICS := by
  cases v with
  | str s =>
    simp only [norm_metric]
    by_cases h : s ∈ METRICS
    · rwa [if_pos h]
    · rw [if_neg h]; simp [METRICS]
  | none => simp [norm_metric, METRICS]
  | int n => simp [norm_metric, METRICS]
  | float q => simp [norm_metric, METRICS]
  | list xs => simp [norm_metric, METRICS]
  | dict kvs => simp [norm_metric, METRICS]

lemma norm_query_type_mem (v : PyVal) : norm_query_type v ∈ GENERAL_QUERY_TYPES := by
  cases v with
  | str s =>
    simp only [norm_query_type]
    by_cases h : s ∈ GENERAL_QUERY_TYPES
    · rwa [if_pos h]
    · rw [if_neg h]; simp [GENERAL_QUERY_TYPES]
  | none => simp [norm_query_type, GENERAL_QUERY_TYPES]
  | int n => simp [norm_query_type, GENERAL_QUERY_TYPES]
  | float q => simp [norm_query_type, GENERAL_QUERY_TYPES]
  | list xs => simp [norm_query_type, GENERAL_QUERY_TYPES]
  | dict kvs => simp [norm_query_type, GENERAL_QUERY_TYPES]

/-- Every output of `validate_tool_call` has one of these shapes; the
constructors enumerate the return statements of validator.py in source
order.  `same_compare` is the equal-category downgrade of lines 89-95,
which passes the trimmed category through without a membership check. -/
inductive ValidOutcome (allowed : List String) : ValidatedCall → Prop where
  | invalid_tool : ValidOutcome allowed fallback_invalid_tool
  | general_info (c : String) (r : PyVal) (hc : c ∈ allowed) (hc0 : c ≠ "") :
      ValidOutcome allowed
        ⟨"general_query",
         [("query_type", PyVal.str "category_info"), ("category", PyVal.str c)], r, Option.none⟩
  | general_downgrade (r : PyVal) :
      ValidOutcome allowed
        ⟨"general_query", [("query_type", PyVal.str "summary_stats")], r,
         some "That category isn't available based on your access, so I'm showing overall summary statistics instead."⟩
  | general_plain (qt : String) (r : PyVal) (h1 : qt ∈ GENERAL_QUERY_TYPES)
      (h2 : qt ≠ "category_info") :
      ValidOutcome allowed
        ⟨"general_query", [("query_type", PyVal.str qt)], r, Option.none⟩
  | metrics (n : Int) (m : String) (r : PyVal) (h1 : 1 ≤ n) (h2 : n ≤ 52)
      (h3 : m ∈ METRICS) :
      ValidOutcome allowed
        ⟨"metrics_top_categories",
         [("top_n", PyVal.int n), ("metric", PyVal.str m)], r, Option.none⟩
  | missing_compare : ValidOutcome allowed fallback_missing_compare
  | same_compare (c : String) (hc0 : c ≠ "") :
      ValidOutcome allowed
        ⟨"rating_distribution", [("category", PyVal.str c)],
         PyVal.str "fallback_same_category_compare",
         some "You asked to compare the same category with itself, so I showed its rating distribution instead."⟩
  | compare_not_allowed : ValidOutcome allowed fallback_compare_not_allowed
  | compare_ok (a b : String) (r : PyVal) (ha : a ∈ allowed) (hb : b ∈ allowed)
      (hab : a ≠ b) (ha0 : a ≠ "") (hb0 : b ≠ "") :
      ValidOutcome allowed
        ⟨"compare_categories",
         [("category_a", PyVal.str a), ("category_b", PyVal.str b)], r, Option.none⟩
  | missing_category : ValidOutcome allowed fallback_missing_category
  | category_not_allowed : ValidOutcome allowed fallback_category_not_allowed
  | sentiment_ok (c : String) (k : Int) (r : PyVal) (hc : c ∈ allowed) (hc0 : c ≠ "")
      (h1 : 5 ≤ k) (h2 : k ≤ 200) :
      ValidOutcome allowed
        ⟨"sentiment_summary",
         [("category", PyVal.str c), ("max_reviews", PyVal.int k)], r, Option.none⟩
  | rating_ok (c : String) (r : PyVal) (hc : c ∈ allowed) (hc0 : c ≠ "") :
      ValidOutcome allowed
        ⟨"rating_distribution", [("category", PyVal.str c)], r, Option.none⟩
  | default_fb : ValidOutcome allowed fallback_default

lemma validate_general_query_outcome (tc args : PyDict) (allowed : List String) :
    ValidOutcome allowed (validate_general_query tc args allowed) := by
  unfold validate_general_query
  by_cases hq : norm_query_type (dictGetD args "query_type" (PyVal.str "summary_stats"))
      = "category_info"
  · rw [if_pos hq]
    cases hc : dictGet args "category" with
    | none => exact ValidOutcome.general_downgrade _
    | some v =>
      cases v with
      | str cat =>
        dsimp only
        by_cases hok : pyStrip cat ≠ "" ∧ pyStrip cat ∈ allowed
        · rw [if_pos hok]
          exact ValidOutcome.general_info _ _ hok.2 hok.1
        · rw [if_neg hok]
          exact ValidOutcome.general_downgrade _
      | none => exact ValidOutcome.general_downgrade _
      | int n => exact ValidOutcome.general_downgrade _
      | float q => exact ValidOutcome.general_downgrade _
      | list xs => exact ValidOutcome.general_downgrade _
      | dict kvs => exact ValidOutcome.general_downgrade _
  · rw [if_neg hq]
    exact ValidOutcome.general_plain _ _ (norm_query_type_mem _) hq

lemma validate_metrics_top_outcome (tc args : PyDict) (allowed : List String) :
    ValidOutcome allowed (validate_metrics_top tc args) :=
  ValidOutcome.metrics _ _ _
    (clamp_top_n_range _).1 (clamp_top_n_range _).2 (norm_metric_mem _)

lemma validate_compare_outcome (tc args : PyDict) (allowed : List String) :
    ValidOutcome allowed (validate_compare tc args allowed) := by
  unfold validate_compare
  cases ha : dictGet args "category_a" with
  | none => exact ValidOutcome.missing_compare
  | some va =>
    cases va with
    | str a0 =>
      cases hb : dictGet args "category_b" with
      | none => exact ValidOutcome.missing_compare
      | some vb =>
        cases vb with
        | str b0 =>
          dsimp only
          by_cases hempty : pyStrip a0 = "" ∨ pyStrip b0 = ""
          · rw [if_pos hempty]; exact ValidOutcome.missing_compare
          · rw [if_neg hempty]
            by_cases heq : pyStrip a0 = pyStrip b0
            · rw [if_pos heq]
              exact ValidOutcome.same_compare _ (by tauto)
            · rw [if_neg heq]
              by_cases hmem : pyStrip a0 ∉ allowed ∨ pyStrip b0 ∉ allowed
              · rw [if_pos hmem]; exact ValidOutcome.compare_not_allowed
              · rw [if_neg hmem]
                push_neg at hmem hempty
                exact ValidOutcome.compare_ok _ _ _ hmem.1 hmem.2 heq hempty.1 hempty.2
        | none => exact ValidOutcome.missing_compare
        | int n => exact ValidOutcome.missing_compare
        | float q => exact ValidOutcome.missing_compare
        | list xs => exact ValidOutcome.missing_compare
        | dict kvs => exact ValidOutcome.missing_compare
    | none => exact ValidOutcome.missing_compare
    | int n => exact ValidOutcome.missing_compare
    | float q => exact ValidOutcome.missing_compare
    | list xs => exact ValidOutcome.missing_compare
    | dict kvs => exact ValidOutcome.missing_compare

lemma validate_cat_tool_outcome (tool : String) (tc args : PyDict) (allowed : List String)
    (htool : tool = "sentiment_summary" ∨ tool = "rating_distribution") :
    ValidOutcome allowed (validate_cat_tool tool tc args allowed) := by
  unfold validate_cat_tool
  cases hc : dictGet args "category" with
  | none => exact ValidOutcome.missing_category
  | some v =>
    cases v with
    | str cat0 =>
      dsimp only
      by_cases hempty : pyStrip cat0 = ""
      · rw [if_pos hempty]; exact ValidOutcome.missing_category
      · rw [if_neg hempty]
        by_cases hmem : pyStrip cat0 ∉ allowed
        · rw [if_pos hmem]; exact ValidOutcome.category_not_allowed
        · rw [if_neg hmem]
          push_neg at hmem
          rcases htool with rfl | rfl
          · rw [if_pos rfl]
            exact ValidOutcome.sentiment_ok _ _ _ hmem hempty
              (clamp_max_reviews_range _).1 (clamp_max_reviews_range _).2
          · rw [if_neg (by decide)]
            exact ValidOutcome.rating_ok _ _ hmem hempty
    | none => exact ValidOutcome.missing_category
    | int n => exact ValidOutcome.missing_category
    | float q => exact ValidOutcome.missing_category
    | list xs => exact ValidOutcome.missing_category
    | dict kvs => exact ValidOutcome.missing_category

/-- Every call returned by `validate_tool_call` has one of the enumerated
shapes, for every input and every allowed-category set. -/
lemma validate_tool_call_outcome (tc : PyDict) (allowed : List String) :
    ValidOutcome allowed (validate_tool_call tc allowed) := by
  unfold validate_tool_call
  cases ht : dictGet tc "tool" with
  | none => exact ValidOutcome.invalid_tool
  | some v =>
    cases v with
    | str tool =>
      cases ha : dictGetD tc "args" (PyVal.dict []) with
      | dict args =>
        dsimp only
        by_cases hmem : tool ∈ ALLOWED_TOOLS
        · rw [if_neg (show ¬tool ∉ ALLOWED_TOOLS from fun h => h hmem)]
          have hmem' := hmem
          simp only [ALLOWED_TOOLS, List.mem_cons, List.not_mem_nil, or_false] at hmem'
          rcases hmem' with rfl | rfl | rfl | rfl | rfl
          · rw [if_neg (by decide), if_pos rfl]
            exact validate_metrics_top_outcome tc args allowed
          · rw [if_neg (by decide), if_neg (by decide), if_neg (by decide),
              if_pos (Or.inl rfl)]
            exact validate_cat_tool_outcome _ tc args allowed (Or.inl rfl)
          · rw [if_neg (by decide), if_neg (by decide), if_neg (by decide),
              if_pos (Or.inr rfl)]
            exact validate_cat_tool_outcome _ tc args allowed (Or.inr rfl)
          · rw [if_pos rfl]
            exact validate_general_query_outcome tc args allowed
          · rw [if_neg (by decide), if_neg (by decide), if_pos rfl]
            exact validate_compare_outcome tc args allowed
        · rw [if_pos hmem]
          exact ValidOutcome.invalid_tool
      | none => exact ValidOutcome.invalid_tool
      | int n => exact ValidOutcome.invalid_tool
      | float q => exact ValidOutcome.invalid_tool
      | str s => exact ValidOutcome.invalid_tool
      | list xs => exact ValidOutcome.invalid_tool
    | none => exact ValidOutcome.invalid_tool
    | int n => exact ValidOutcome.invalid_tool
    | float q => exact ValidOutcome.invalid_tool
    | list xs => exact ValidOutcome.invalid_tool
    | dict kvs => exact ValidOutcome.invalid_tool

/-! ## Evaluation lemmas for the view-state update -/

lemma apply_non_plot (vc : ValidatedCall) (s : PlotState)
    (h1 : vc.tool ≠ "rating_distribution") (h2 : vc.tool ≠ "metrics_top_categories")
    (h3 : vc.tool ≠ "compare_categories") :
    apply_plot_interactions vc s = s := by
  unfold apply_plot_interactions
  dsimp only
  rw [if_neg h3, if_neg h2, if_neg h1]

lemma apply_rating_lit (c : String) (r : PyVal) (fb : Option String) (s : PlotState) :
    apply_plot_interactions
      ⟨"rating_distribution", [("category", PyVal.str c)], r, fb⟩ s =
      { s with rating_dist_category := some c } := rfl

lemma apply_compare_lit (a b : String) (r : PyVal) (fb : Option String) (s : PlotState) :
    apply_plot_interactions
      ⟨"compare_categories",
       [("category_a", PyVal.str a), ("category_b", PyVal.str b)], r, fb⟩ s =
      { s with compare_pair := some (a, b), rating_dist_category := some a } := rfl

lemma apply_metrics_lit (n : Int) (m : String) (r : PyVal) (fb : Option String)
    (s : PlotState) (hm : m ∈ METRICS) :
    apply_plot_interactions
      ⟨"metrics_top_categories",
       [("top_n", PyVal.int n), ("metric", PyVal.str m)], r, fb⟩ s =
      { s with top_n := max 5 (min 50 n), top_metric := m, compare_pair := Option.none } := by
  have h0 : apply_plot_interactions
      ⟨"metrics_top_categories",
       [("top_n", PyVal.int n), ("metric", PyVal.str m)], r, fb⟩ s =
      { (if m ∈ METRICS then
          { { s with top_n := max 5 (min 50 n) } with top_metric := m }
         else { s with top_n := max 5 (min 50 n) }) with compare_pair := Option.none } := rfl
  rw [h0, if_pos hm]

lemma apply_metrics_lit_nometric (n : Int) (r : PyVal) (fb : Option String) (s : PlotState) :
    apply_plot_interactions
      ⟨"metrics_top_categories", [("top_n", PyVal.int n)], r, fb⟩ s =
      { s with top_n := max 5 (min 50 n), compare_pair := Option.none } := rfl

/-- The view-state frame/effect of each enumerated validator output. -/
lemma view_frame_of_outcome (allowed : List String) (vc : ValidatedCall) (s : PlotState)
    (h : ValidOutcome allowed vc) :
    (vc.tool = "general_query" → apply_plot_interactions vc s = s) ∧
    (vc.tool = "sentiment_summary" → apply_plot_interactions vc s = s) ∧
    (vc.tool = "rating_distribution" →
      ∃ c, dictGet vc.args "category" = some (PyVal.str c) ∧
        apply_plot_interactions vc s = { s with rating_dist_category := some c }) ∧
    (vc.tool = "metrics_top_categories" →
      ∃ n : Int, dictGet vc.args "top_n" = some (PyVal.int n) ∧
        (apply_plot_interactions vc s).top_n = max 5 (min 50 n) ∧
        (apply_plot_interactions vc s).compare_pair = Option.none ∧
        (apply_plot_interactions vc s).rating_dist_category = s.rating_dist_category ∧
        (∀ m, dictGet vc.args "metric" = some (PyVal.str m) →
          (apply_plot_interactions vc s).top_metric = m) ∧
        (dictGet vc.args "metric" = Option.none →
          (apply_plot_interactions vc s).top_metric = s.top_metric)) ∧
    (vc.tool = "compare_categories" →
      ∃ a b, dictGet vc.args "category_a" = some (PyVal.str a) ∧
        dictGet vc.args "category_b" = some (PyVal.str b) ∧
        apply_plot_interactions vc s =
          { s with compare_pair := some (a, b), rating_dist_category := some a }) := by
  cases h with
  | invalid_tool =>
    exact ⟨fun _ => apply_non_plot _ _ (by simp [fallback_invalid_tool, fallback_missing_compare, fallback_compare_not_allowed, fallback_missing_category, fallback_category_not_allowed, fallback_default]) (by simp [fallback_invalid_tool, fallback_missing_compare, fallback_compare_not_allowed, fallback_missing_category, fallback_category_not_allowed, fallback_default]) (by simp [fallback_invalid_tool, fallback_missing_compare, fallback_compare_not_allowed, fallback_missing_category, fallback_category_not_allowed, fallback_default]),
      fun hh => by simp [fallback_invalid_tool, fallback_missing_compare, fallback_compare_not_allowed, fallback_missing_category, fallback_category_not_allowed, fallback_default] at hh, fun hh => by simp [fallback_invalid_tool, fallback_missing_compare, fallback_compare_not_allowed, fallback_missing_category, fallback_category_not_allowed, fallback_default] at hh,
      fun hh => by simp [fallback_invalid_tool, fallback_missing_compare, fallback_compare_not_allowed, fallback_missing_category, fallback_category_not_allowed, fallback_default] at hh, fun hh => by simp [fallback_invalid_tool, fallback_missing_compare, fallback_compare_not_allowed, fallback_missing_category, fallback_category_not_allowed, fallback_default] at hh⟩
  | general_info c r hc hc0 =>
    exact ⟨fun _ => apply_non_plot _ _ (by simp [fallback_invalid_tool, fallback_missing_compare, fallback_compare_not_allowed, fallback_missing_category, fallback_category_not_allowed, fallback_default]) (by simp [fallback_invalid_tool, fallback_missing_compare, fallback_compare_not_allowed, fallback_missing_category, fallback_category_not_allowed, fallback_default]) (by simp [fallback_invalid_tool, fallback_missing_compare, fallback_compare_not_allowed, fallback_missing_category, fallback_category_not_allowed, fallback_default]),
      fun hh => by simp [fallback_invalid_tool, fallback_missing_compare, fallback_compare_not_allowed, fallback_missing_category, fallback_category_not_allowed, fallback_default] at hh, fun hh => by simp [fallback_invalid_tool, fallback_missing_compare, fallback_compare_not_allowed, fallback_missing_category, fallback_category_not_allowed, fallback_default] at hh,
      fun hh => by simp [fallback_invalid_tool, fallback_missing_compare, fallback_compare_not_allowed, fallback_missing_category, fallback_category_not_allowed, fallback_default] at hh, fun hh => by simp [fallback_invalid_tool, fallback_missing_compare, fallback_compare_not_allowed, fallback_missing_category, fallback_category_not_allowed, fallback_default] at hh⟩
  | general_downgrade r =>
    exact ⟨fun _ => apply_non_plot _ _ (by simp [fallback_invalid_tool, fallback_missing_compare, fallback_compare_not_allowed, fallback_missing_category, fallback_category_not_allowed, fallback_default]) (by simp [fallback_invalid_tool, fallback_missing_compare, fallback_compare_not_allowed, fallback_missing_category, fallback_category_not_allowed, fallback_default]) (by simp [fallback_invalid_tool, fallback_missing_compare, fallback_compare_not_allowed, fallback_missing_category, fallback_category_not_allowed, fallback_default]),
      fun hh => by simp [fallback_invalid_tool, fallback_missing_compare, fallback_compare_not_allowed, fallback_missing_category, fallback_category_not_allowed, fallback_default] at hh, fun hh => by simp [fallback_invalid_tool, fallback_missing_compare, fallback_compare_not_allowed, fallback_missing_category, fallback_category_not_allowed, fallback_default] at hh,
      fun hh => by simp [fallback_invalid_tool, fallback_missing_compare, fallback_compare_not_allowed, fallback_missing_category, fallback_category_not_allowed, fallback_default] at hh, fun hh => by simp [fallback_invalid_tool, fallback_missing_compare, fallback_compare_not_allowed, fallback_missing_category, fallback_category_not_allowed, fallback_default] at hh⟩
  | general_plain qt r h1 h2 =>
    exact ⟨fun _ => apply_non_plot _ _ (by simp [fallback_invalid_tool, fallback_missing_compare, fallback_compare_not_allowed, fallback_missing_category, fallback_category_not_allowed, fallback_default]) (by simp [fallback_invalid_tool, fallback_missing_compare, fallback_compare_not_allowed, fallback_missing_category, fallback_category_not_allowed, fallback_default]) (by simp [fallback_invalid_tool, fallback_missing_compare, fallback_compare_not_allowed, fallback_missing_category, fallback_category_not_allowed, fallback_default]),
      fun hh => by simp [fallback_invalid_tool, fallback_missing_compare, fallback_compare_not_allowed, fallback_missing_category, fallback_category_not_allowed, fallback_default] at hh, fun hh => by simp [fallback_invalid_tool, fallback_missing_compare, fallback_compare_not_allowed, fallback_missing_category, fallback_category_not_allowed, fallback_default] at hh,
      fun hh => by simp [fallback_invalid_tool, fallback_missing_compare, fallback_compare_not_allowed, fallback_missing_category, fallback_category_not_allowed, fallback_default] at hh, fun hh => by simp [fallback_invalid_tool, fallback_missing_compare, fallback_compare_not_allowed, fallback_missing_category, fallback_category_not_allowed, fallback_default] at hh⟩
  | sentiment_ok c k r hc hc0 h1 h2 =>
    exact ⟨fun hh => by simp [fallback_invalid_tool, fallback_missing_compare, fallback_compare_not_allowed, fallback_missing_category, fallback_category_not_allowed, fallback_default] at hh,
      fun _ => apply_non_plot _ _ (by simp [fallback_invalid_tool, fallback_missing_compare, fallback_compare_not_allowed, fallback_missing_category, fallback_category_not_allowed, fallback_default]) (by simp [fallback_invalid_tool, fallback_missing_compare, fallback_compare_not_allowed, fallback_missing_category, fallback_category_not_allowed, fallback_default]) (by simp [fallback_invalid_tool, fallback_missing_compare, fallback_compare_not_allowed, fallback_missing_category, fallback_category_not_allowed, fallback_default]),
      fun hh => by simp [fallback_invalid_tool, fallback_missing_compare, fallback_compare_not_allowed, fallback_missing_category, fallback_category_not_allowed, fallback_default] at hh, fun hh => by simp [fallback_invalid_tool, fallback_missing_compare, fallback_compare_not_allowed, fallback_missing_category, fallback_category_not_allowed, fallback_default] at hh,
      fun hh => by simp [fallback_invalid_tool, fallback_missing_compare, fallback_compare_not_allowed, fallback_missing_category, fallback_category_not_allowed, fallback_default] at hh⟩
  | same_compare c hc0 =>
    refine ⟨fun hh => by simp [fallback_invalid_tool, fallback_missing_compare, fallback_compare_not_allowed, fallback_missing_category, fallback_category_not_allowed, fallback_default] at hh, fun hh => by simp [fallback_invalid_tool, fallback_missing_compare, fallback_compare_not_allowed, fallback_missing_category, fallback_category_not_allowed, fallback_default] at hh,
      fun _ => ⟨c, rfl, apply_rating_lit c _ _ s⟩,
      fun hh => by simp [fallback_invalid_tool, fallback_missing_compare, fallback_compare_not_allowed, fallback_missing_category, fallback_category_not_allowed, fallback_default] at hh, fun hh => by simp [fallback_invalid_tool, fallback_missing_compare, fallback_compare_not_allowed, fallback_missing_category, fallback_category_not_allowed, fallback_default] at hh⟩
  | rating_ok c r hc hc0 =>
    refine ⟨fun hh => by simp [fallback_invalid_tool, fallback_missing_compare, fallback_compare_not_allowed, fallback_missing_category, fallback_category_not_allowed, fallback_default] at hh, fun hh => by simp [fallback_invalid_tool, fallback_missing_compare, fallback_compare_not_allowed, fallback_missing_category, fallback_category_not_allowed, fallback_default] at hh,
      fun _ => ⟨c, rfl, apply_rating_lit c _ _ s⟩,
      fun hh => by simp [fallback_invalid_tool, fallback_missing_compare, fallback_compare_not_allowed, fallback_missing_category, fallback_category_not_allowed, fallback_default] at hh, fun hh => by simp [fallback_invalid_tool, fallback_missing_compare, fallback_compare_not_allowed, fallback_missing_category, fallback_category_not_allowed, fallback_default] at hh⟩
  | compare_ok a b r ha hb hab ha0 hb0 =>
    refine ⟨fun hh => by simp [fallback_invalid_tool, fallback_missing_compare, fallback_compare_not_allowed, fallback_missing_category, fallback_category_not_allowed, fallback_default] at hh, fun hh => by simp [fallback_invalid_tool, fallback_missing_compare, fallback_compare_not_allowed, fallback_missing_category, fallback_category_not_allowed, fallback_default] at hh,
      fun hh => by simp [fallback_invalid_tool, fallback_missing_compare, fallback_compare_not_allowed, fallback_missing_category, fallback_category_not_allowed, fallback_default] at hh, fun hh => by simp [fallback_invalid_tool, fallback_missing_compare, fallback_compare_not_allowed, fallback_missing_category, fallback_category_not_allowed, fallback_default] at hh,
      fun _ => ⟨a, b, rfl, rfl, apply_compare_lit a b _ _ s⟩⟩
  | metrics n m r h1 h2 h3 =>
    refine ⟨fun hh => by simp [fallback_invalid_tool, fallback_missing_compare, fallback_compare_not_allowed, fallback_missing_category, fallback_category_not_allowed, fallback_default] at hh, fun hh => by simp [fallback_invalid_tool, fallback_missing_compare, fallback_compare_not_allowed, fallback_missing_category, fallback_category_not_allowed, fallback_default] at hh,
      fun hh => by simp [fallback_invalid_tool, fallback_missing_compare, fallback_compare_not_allowed, fallback_missing_category, fallback_category_not_allowed, fallback_default] at hh, fun _ => ?_, fun hh => by simp [fallback_invalid_tool, fallback_missing_compare, fallback_compare_not_allowed, fallback_missing_category, fallback_category_not_allowed, fallback_default] at hh⟩
    refine ⟨n, rfl, ?_, ?_, ?_, ?_, ?_⟩
    · rw [apply_metrics_lit n m r Option.none s h3]
    · rw [apply_metrics_lit n m r Option.none s h3]
    · rw [apply_metrics_lit n m r Option.none s h3]
    · intro m' hm'
      have hm2 : PyVal.str m = PyVal.str m' := Option.some.inj hm'
      injection hm2 with hm3
      subst hm3
      rw [apply_metrics_lit n m r Option.none s h3]
    · intro hnone
      exact Option.noConfusion hnone
  | missing_compare =>
    refine ⟨fun hh => by simp [fallback_invalid_tool, fallback_missing_compare, fallback_compare_not_allowed, fallback_missing_category, fallback_category_not_allowed, fallback_default] at hh, fun hh => by simp [fallback_invalid_tool, fallback_missing_compare, fallback_compare_not_allowed, fallback_missing_category, fallback_category_not_allowed, fallback_default] at hh,
      fun hh => by simp [fallback_invalid_tool, fallback_missing_compare, fallback_compare_not_allowed, fallback_missing_category, fallback_category_not_allowed, fallback_default] at hh, fun _ => ?_, fun hh => by simp [fallback_invalid_tool, fallback_missing_compare, fallback_compare_not_allowed, fallback_missing_category, fallback_category_not_allowed, fallback_default] at hh⟩
    refine ⟨15, rfl, rfl, rfl, rfl, ?_, fun hnone => Option.noConfusion hnone⟩
    intro m' hm'
    exact PyVal.str.inj (Option.some.inj hm')
  | compare_not_allowed =>
    refine ⟨fun hh => by simp [fallback_invalid_tool, fallback_missing_compare, fallback_compare_not_allowed, fallback_missing_category, fallback_category_not_allowed, fallback_default] at hh, fun hh => by simp [fallback_invalid_tool, fallback_missing_compare, fallback_compare_not_allowed, fallback_missing_category, fallback_category_not_allowed, fallback_default] at hh,
      fun hh => by simp [fallback_invalid_tool, fallback_missing_compare, fallback_compare_not_allowed, fallback_missing_category, fallback_category_not_allowed, fallback_default] at hh, fun _ => ?_, fun hh => by simp [fallback_invalid_tool, fallback_missing_compare, fallback_compare_not_allowed, fallback_missing_category, fallback_category_not_allowed, fallback_default] at hh⟩
    refine ⟨15, rfl, rfl, rfl, rfl, ?_, fun hnone => Option.noConfusion hnone⟩
    intro m' hm'
    exact PyVal.str.inj (Option.some.inj hm')
  | default_fb =>
    refine ⟨fun hh => by simp [fallback_invalid_tool, fallback_missing_compare, fallback_compare_not_allowed, fallback_missing_category, fallback_category_not_allowed, fallback_default] at hh, fun hh => by simp [fallback_invalid_tool, fallback_missing_compare, fallback_compare_not_allowed, fallback_missing_category, fallback_category_not_allowed, fallback_default] at hh,
      fun hh => by simp [fallback_invalid_tool, fallback_missing_compare, fallback_compare_not_allowed, fallback_missing_category, fallback_category_not_allowed, fallback_default] at hh, fun _ => ?_, fun hh => by simp [fallback_invalid_tool, fallback_missing_compare, fallback_compare_not_allowed, fallback_missing_category, fallback_category_not_allowed, fallback_default] at hh⟩
    refine ⟨15, rfl, rfl, rfl, rfl, ?_, fun hnone => Option.noConfusion hnone⟩
    intro m' hm'
    exact PyVal.str.inj (Option.some.inj hm')
  | missing_category =>
    refine ⟨fun hh => by simp [fallback_invalid_tool, fallback_missing_compare, fallback_compare_not_allowed, fallback_missing_category, fallback_category_not_allowed, fallback_default] at hh, fun hh => by simp [fallback_invalid_tool, fallback_missing_compare, fallback_compare_not_allowed, fallback_missing_category, fallback_category_not_allowed, fallback_default] at hh,
      fun hh => by simp [fallback_invalid_tool, fallback_missing_compare, fallback_compare_not_allowed, fallback_missing_category, fallback_category_not_allowed, fallback_default] at hh, fun _ => ?_, fun hh => by simp [fallback_invalid_tool, fallback_missing_compare, fallback_compare_not_allowed, fallback_missing_category, fallback_category_not_allowed, fallback_default] at hh⟩
    exact ⟨15, rfl, rfl, rfl, rfl,
      fun m' hm' => Option.noConfusion hm', fun _ => rfl⟩
  | category_not_allowed =>
    refine ⟨fun hh => by simp [fallback_invalid_tool, fallback_missing_compare, fallback_compare_not_allowed, fallback_missing_category, fallback_category_not_allowed, fallback_default] at hh, fun hh => by simp [fallback_invalid_tool, fallback_missing_compare, fallback_compare_not_allowed, fallback_missing_category, fallback_category_not_allowed, fallback_default] at hh,
      fun hh => by simp [fallback_invalid_tool, fallback_missing_compare, fallback_compare_not_allowed, fallback_missing_category, fallback_category_not_allowed, fallback_default] at hh, fun _ => ?_, fun hh => by simp [fallback_invalid_tool, fallback_missing_compare, fallback_compare_not_allowed, fallback_missing_category, fallback_category_not_allowed, fallback_default] at hh⟩
    exact ⟨15, rfl, rfl, rfl, rfl,
      fun m' hm' => Option.noConfusion hm', fun _ => rfl⟩

/-- C6: for every candidate call and allowed set, the validated call's effect
on the session view state is: `metrics_top_categories` sets `top_n` (clamped
to the UI bounds `[5, 50]`) and `top_metric` (when its `metric` arg is
present) and clears `compare_pair`, leaving `rating_dist_category` alone;
`rating_distribution` sets only `rating_dist_category`; `compare_categories`
sets `compare_pair` and sets `rating_dist_category` to `category_a`;
`general_query` and `sentiment_summary` leave the whole view state
unchanged. -/
theorem C6_view_state_transitions (tc : PyDict) (allowed : List String) (s : PlotState) :
    ((validate_tool_call tc allowed).tool = "general_query" →
      apply_plot_interactions (validate_tool_call tc allowed) s = s) ∧
    ((validate_tool_call tc allowed).tool = "sentiment_summary" →
      apply_plot_interactions (validate_tool_call tc allowed) s = s) ∧
    ((validate_tool_call tc allowed).tool = "rating_distribution" →
      ∃ c, dictGet (validate_tool_call tc allowed).args "category" = some (PyVal.str c) ∧
        apply_plot_interactions (validate_tool_call tc allowed) s =
          { s with rating_dist_category := some c }) ∧
    ((validate_tool_call tc allowed).tool = "metrics_top_categories" →
      ∃ n : Int, dictGet (validate_tool_call tc allowed).args "top_n" = some (PyVal.int n) ∧
        (apply_plot_interactions (validate_tool_call tc allowed) s).top_n = max 5 (min 50 n) ∧
        (apply_plot_interactions (validate_tool_call tc allowed) s).compare_pair = Option.none ∧
        (apply_plot_interactions (validate_tool_call tc allowed) s).rating_dist_category =
          s.rating_dist_category ∧
        (∀ m, dictGet (validate_tool_call tc allowed).args "metric" = some (PyVal.str m) →
          (apply_plot_interactions (validate_tool_call tc allowed) s).top_metric = m) ∧
        (dictGet (validate_tool_call tc allowed).args "metric" = Option.none →
          (apply_plot_interactions (validate_tool_call tc allowed) s).top_metric =
            s.top_metric)) ∧
    ((validate_tool_call tc allowed).tool = "compare_categories" →
      ∃ a b, dictGet (validate_tool_call tc allowed).args "category_a" = some (PyVal.str a) ∧
        dictGet (validate_tool_call tc allowed).args "category_b" = some (PyVal.str b) ∧
        apply_plot_interactions (validate_tool_call tc allowed) s =
          { s with compare_pair := some (a, b), rating_dist_category := some a }) :=
  view_frame_of_outcome allowed (validate_tool_call tc allowed) s
    (validate_tool_call_outcome tc allowed)

/-- Witness for C6: a validated compare call sets the pair and syncs the
histogram category; a validated sentiment call leaves the state unchanged. -/
theorem C6_view_state_transitions_witness :
    apply_plot_interactions (validate_tool_call (mkCompareTc "A" "B") ["A", "B"])
      ⟨15, "review_count", Option.none, Option.none⟩ =
      ⟨15, "review_count", some ("A", "B"), some "A"⟩ := by
  obtain ⟨-, -, -, -, h5⟩ :=
    C6_view_state_transitions (mkCompareTc "A" "B") ["A", "B"]
      ⟨15, "review_count", Option.none, Option.none⟩
  obtain ⟨a, b, ha, hb, happ⟩ := h5 rfl
  have ha2 : PyVal.str "A" = PyVal.str a := Option.some.inj ha
  have hb2 : PyVal.str "B" = PyVal.str b := Option.some.inj hb
  injection ha2 with ha3
  injection hb2 with hb3
  subst ha3
  subst hb3
  rw [happ]

/-! ## C1 / C2: access enforcement and validator well-formedness -/

/-- "The validated call carries category `C` as an argument of a
`rating_distribution`, `sentiment_summary`, or `compare_categories`
call" (stated from the spec's access-enforcement property). -/
def carriesCategory (vc : ValidatedCall) (C : String) : Prop :=
  ((vc.tool = "rating_distribution" ∨ vc.tool = "sentiment_summary") ∧
    dictGet vc.args "category" = some (PyVal.str C)) ∨
  (vc.tool = "compare_categories" ∧
    (dictGet vc.args "category_a" = some (PyVal.str C) ∨
     dictGet vc.args "category_b" = some (PyVal.str C)))

/-- Counterexample to C1 as stated: with the empty allowed set, a
`compare_categories` candidate whose two fields are both "Secret" validates
to a `rating_distribution` call carrying the disallowed category "Secret"
(the equal-category downgrade skips the membership check). -/
theorem C1_counterexample :
    "Secret" ∉ ([] : List String) ∧
    carriesCategory (validate_tool_call (mkCompareTc "Secret" "Secret") []) "Secret" := by
  refine ⟨by simp, Or.inl ⟨Or.inl rfl, rfl⟩⟩

/-- Helper for C1: among the enumerated validator outputs, only the
equal-category compare downgrade can carry a category outside the allowed
set. -/
lemma carries_of_outcome (allowed : List String) (vc : ValidatedCall) (C : String)
    (h : ValidOutcome allowed vc) (hC : C ∉ allowed) :
    carriesCategory vc C →
    vc.tool = "rating_distribution" ∧
    vc.rationale = PyVal.str "fallback_same_category_compare" ∧
    vc.fallback_reason =
      some "You asked to compare the same category with itself, so I showed its rating distribution instead." := by
  cases h with
  | same_compare c hc0 => exact fun _ => ⟨rfl, rfl, rfl⟩
  | rating_ok c r hc hc0 =>
    intro hcarry
    exfalso
    rcases hcarry with ⟨-, hcat⟩ | ⟨htool, -⟩
    · exact hC (PyVal.str.inj (Option.some.inj hcat) ▸ hc)
    · simp at htool
  | sentiment_ok c k r hc hc0 h1 h2 =>
    intro hcarry
    exfalso
    rcases hcarry with ⟨-, hcat⟩ | ⟨htool, -⟩
    · exact hC (PyVal.str.inj (Option.some.inj hcat) ▸ hc)
    · simp at htool
  | compare_ok a b r ha hb hab ha0 hb0 =>
    intro hcarry
    exfalso
    rcases hcarry with ⟨htool, -⟩ | ⟨-, hab'⟩
    · rcases htool with htool | htool <;> simp at htool
    · rcases hab' with hcat | hcat
      · exact hC (PyVal.str.inj (Option.some.inj hcat) ▸ ha)
      · exact hC (PyVal.str.inj (Option.some.inj hcat) ▸ hb)
  | invalid_tool =>
    intro hcarry
    exfalso
    rcases hcarry with ⟨htool, -⟩ | ⟨htool, -⟩
    · rcases htool with htool | htool <;> simp [fallback_invalid_tool] at htool
    · simp [fallback_invalid_tool] at htool
  | general_info c r hc hc0 =>
    intro hcarry
    exfalso
    rcases hcarry with ⟨htool, -⟩ | ⟨htool, -⟩
    · rcases htool with htool | htool <;> simp at htool
    · simp at htool
  | general_downgrade r =>
    intro hcarry
    exfalso
    rcases hcarry with ⟨htool, -⟩ | ⟨htool, -⟩
    · rcases htool with htool | htool <;> simp at htool
    · simp at htool
  | general_plain qt r h1 h2 =>
    intro hcarry
    exfalso
    rcases hcarry with ⟨htool, -⟩ | ⟨htool, -⟩
    · rcases htool with htool | htool <;> simp at htool
    · simp at htool
  | metrics n m r h1 h2 h3 =>
    intro hcarry
    exfalso
    rcases hcarry with ⟨htool, -⟩ | ⟨htool, -⟩
    · rcases htool with htool | htool <;> simp at htool
    · simp at htool
  | missing_compare =>
    intro hcarry
    exfalso
    rcases hcarry with ⟨htool, -⟩ | ⟨htool, -⟩
    · rcases htool with htool | htool <;> simp [fallback_missing_compare] at htool
    · simp [fallback_missing_compare] at htool
  | compare_not_allowed =>
    intro hcarry
    exfalso
    rcases hcarry with ⟨htool, -⟩ | ⟨htool, -⟩
    · rcases htool with htool | htool <;> simp [fallback_compare_not_allowed] at htool
    · simp [fallback_compare_not_allowed] at htool
  | missing_category =>
    intro hcarry
    exfalso
    rcases hcarry with ⟨htool, -⟩ | ⟨htool, -⟩
    · rcases htool with htool | htool <;> simp [fallback_missing_category] at htool
    · simp [fallback_missing_category] at htool
  | category_not_allowed =>
    intro hcarry
    exfalso
    rcases hcarry with ⟨htool, -⟩ | ⟨htool, -⟩
    · rcases htool with htool | htool <;> simp [fallback_category_not_allowed] at htool
    · simp [fallback_category_not_allowed] at htool
  | default_fb =>
    intro hcarry
    exfalso
    rcases hcarry with ⟨htool, -⟩ | ⟨htool, -⟩
    · rcases htool with htool | htool <;> simp [fallback_default] at htool
    · simp [fallback_default] at htool

/-- C1 (amended): a category outside the allowed set can appear in a
validated `rating_distribution`, `sentiment_summary`, or
`compare_categories` call only through the equal-category compare
downgrade, which yields the `rating_distribution` call marked with the
`fallback_same_category_compare` rationale; `sentiment_summary` and
`compare_categories` calls never carry such a category. -/
theorem C1_access_enforcement_amended (tc : PyDict) (allowed : List String) (C : String)
    (hC : C ∉ allowed)
    (hcarry : carriesCategory (validate_tool_call tc allowed) C) :
    (validate_tool_call tc allowed).tool = "rating_distribution" ∧
    (validate_tool_call tc allowed).rationale = PyVal.str "fallback_same_category_compare" ∧
    (validate_tool_call tc allowed).fallback_reason =
      some "You asked to compare the same category with itself, so I showed its rating distribution instead." :=
  carries_of_outcome allowed (validate_tool_call tc allowed) C
    (validate_tool_call_outcome tc allowed) hC hcarry

/-- Witness for the amended C1 at the concrete leak input. -/
theorem C1_access_enforcement_amended_witness :
    "Leaky" ∉ ([] : List String) ∧
    carriesCategory (validate_tool_call (mkCompareTc "Leaky" "Leaky") []) "Leaky" ∧
    (validate_tool_call (mkCompareTc "Leaky" "Leaky") []).tool = "rating_distribution" ∧
    (validate_tool_call (mkCompareTc "Leaky" "Leaky") []).rationale =
      PyVal.str "fallback_same_category_compare" := by
  have h1 : "Leaky" ∉ ([] : List String) := by simp
  have h2 : carriesCategory (validate_tool_call (mkCompareTc "Leaky" "Leaky") []) "Leaky" :=
    Or.inl ⟨Or.inl rfl, rfl⟩
  have h := C1_access_enforcement_amended (mkCompareTc "Leaky" "Leaky") [] "Leaky" h1 h2
  exact ⟨h1, h2, h.1, h.2.1⟩

/-- The per-tool field constraints of the spec (§4.4), membership checks
included, written from the spec's words: `general_query` carries a valid
`query_type` and, when present, an allowed non-empty `category`;
`metrics_top_categories` carries an integer `top_n` in `[1, 52]` and, when
present, a valid `metric`; `rating_distribution` and `sentiment_summary`
carry a non-empty allowed `category` (plus `max_reviews` in `[5, 200]`);
`compare_categories` carries two distinct non-empty allowed categories. -/
def SpecFieldConstraints (allowed : List String) (vc : ValidatedCall) : Prop :=
  (vc.tool = "general_query" →
    (∃ qt, dictGet vc.args "query_type" = some (PyVal.str qt) ∧ qt ∈ GENERAL_QUERY_TYPES) ∧
    (∀ v, dictGet vc.args "category" = some v →
      ∃ c, v = PyVal.str c ∧ c ≠ "" ∧ c ∈ allowed)) ∧
  (vc.tool = "metrics_top_categories" →
    (∃ n : Int, dictGet vc.args "top_n" = some (PyVal.int n) ∧ 1 ≤ n ∧ n ≤ 52) ∧
    (∀ v, dictGet vc.args "metric" = some v → ∃ m, v = PyVal.str m ∧ m ∈ METRICS)) ∧
  (vc.tool = "rating_distribution" →
    ∃ c, dictGet vc.args "category" = some (PyVal.str c) ∧ c ≠ "" ∧ c ∈ allowed) ∧
  (vc.tool = "sentiment_summary" →
    (∃ c, dictGet vc.args "category" = some (PyVal.str c) ∧ c ≠ "" ∧ c ∈ allowed) ∧
    (∃ k : Int, dictGet vc.args "max_reviews" = some (PyVal.int k) ∧ 5 ≤ k ∧ k ≤ 200)) ∧
  (vc.tool = "compare_categories" →
    ∃ a b, dictGet vc.args "category_a" = some (PyVal.str a) ∧
      dictGet vc.args "category_b" = some (PyVal.str b) ∧
      a ≠ "" ∧ b ≠ "" ∧ a ≠ b ∧ a ∈ allowed ∧ b ∈ allowed)

/-- The field constraints the code actually guarantees: identical to
`SpecFieldConstraints` except that a validated `rating_distribution` call's
category is only guaranteed non-empty, not in the allowed set (the
equal-category compare downgrade skips the membership check). -/
def CodeFieldConstraints (allowed : List String) (vc : ValidatedCall) : Prop :=
  (vc.tool = "general_query" →
    (∃ qt, dictGet vc.args "query_type" = some (PyVal.str qt) ∧ qt ∈ GENERAL_QUERY_TYPES) ∧
    (∀ v, dictGet vc.args "category" = some v →
      ∃ c, v = PyVal.str c ∧ c ≠ "" ∧ c ∈ allowed)) ∧
  (vc.tool = "metrics_top_categories" →
    (∃ n : Int, dictGet vc.args "top_n" = some (PyVal.int n) ∧ 1 ≤ n ∧ n ≤ 52) ∧
    (∀ v, dictGet vc.args "metric" = some v → ∃ m, v = PyVal.str m ∧ m ∈ METRICS)) ∧
  (vc.tool = "rating_distribution" →
    ∃ c, dictGet vc.args "category" = some (PyVal.str c) ∧ c ≠ "") ∧
  (vc.tool = "sentiment_summary" →
    (∃ c, dictGet vc.args "category" = some (PyVal.str c) ∧ c ≠ "" ∧ c ∈ allowed) ∧
    (∃ k : Int, dictGet vc.args "max_reviews" = some (PyVal.int k) ∧ 5 ≤ k ∧ k ≤ 200)) ∧
  (vc.tool = "compare_categories" →
    ∃ a b, dictGet vc.args "category_a" = some (PyVal.str a) ∧
      dictGet vc.args "category_b" = some (PyVal.str b) ∧
      a ≠ "" ∧ b ≠ "" ∧ a ≠ b ∧ a ∈ allowed ∧ b ∈ allowed)

/-- Counterexample to C2 as stated: the validated call for a same-category
compare of "Hidden" (not in the empty allowed set) is a
`rating_distribution` call whose category violates the spec's
rating-distribution field constraint ("present in the allowed set"). -/
theorem C2_counterexample :
    ¬ SpecFieldConstraints [] (validate_tool_call (mkCompareTc "Hidden" " Hidden ") []) := by
  intro h
  obtain ⟨c, -, -, hmem⟩ := h.2.2.1 rfl
  exact (List.not_mem_nil c) hmem

/-- Helper for C2: every enumerated validator output is in the closed tool
vocabulary and satisfies the code-level field constraints. -/
lemma constraints_of_outcome (allowed : List String) (vc : ValidatedCall)
    (h : ValidOutcome allowed vc) :
    vc.tool ∈ ALLOWED_TOOLS ∧ CodeFieldConstraints allowed vc := by
  cases h with
  | invalid_tool =>
    refine ⟨by simp [ALLOWED_TOOLS, fallback_invalid_tool], ?_,
      fun hh => by simp [fallback_invalid_tool] at hh,
      fun hh => by simp [fallback_invalid_tool] at hh,
      fun hh => by simp [fallback_invalid_tool] at hh,
      fun hh => by simp [fallback_invalid_tool] at hh⟩
    intro _
    exact ⟨⟨"summary_stats", rfl, by decide⟩, fun v hv => Option.noConfusion hv⟩
  | general_info c r hc hc0 =>
    refine ⟨by simp [ALLOWED_TOOLS], ?_, fun hh => by simp at hh,
      fun hh => by simp at hh, fun hh => by simp at hh, fun hh => by simp at hh⟩
    intro _
    exact ⟨⟨"category_info", rfl, by decide⟩,
      fun v hv => ⟨c, (Option.some.inj hv).symm, hc0, hc⟩⟩
  | general_downgrade r =>
    refine ⟨by simp [ALLOWED_TOOLS], ?_, fun hh => by simp at hh,
      fun hh => by simp at hh, fun hh => by simp at hh, fun hh => by simp at hh⟩
    intro _
    exact ⟨⟨"summary_stats", rfl, by decide⟩, fun v hv => Option.noConfusion hv⟩
  | general_plain qt r h1 h2 =>
    refine ⟨by simp [ALLOWED_TOOLS], ?_, fun hh => by simp at hh,
      fun hh => by simp at hh, fun hh => by simp at hh, fun hh => by simp at hh⟩
    intro _
    exact ⟨⟨qt, rfl, h1⟩, fun v hv => Option.noConfusion hv⟩
  | metrics n m r h1 h2 h3 =>
    refine ⟨by simp [ALLOWED_TOOLS], fun hh => by simp at hh, ?_,
      fun hh => by simp at hh, fun hh => by simp at hh, fun hh => by simp at hh⟩
    intro _
    exact ⟨⟨n, rfl, h1, h2⟩, fun v hv => ⟨m, (Option.some.inj hv).symm, h3⟩⟩
  | missing_compare =>
    refine ⟨by simp [ALLOWED_TOOLS, fallback_missing_compare],
      fun hh => by simp [fallback_missing_compare] at hh, ?_,
      fun hh => by simp [fallback_missing_compare] at hh,
      fun hh => by simp [fallback_missing_compare] at hh,
      fun hh => by simp [fallback_missing_compare] at hh⟩
    intro _
    exact ⟨⟨15, rfl, by omega, by omega⟩,
      fun v hv => ⟨"review_count", (Option.some.inj hv).symm, by decide⟩⟩
  | same_compare c hc0 =>
    refine ⟨by simp [ALLOWED_TOOLS], fun hh => by simp at hh,
      fun hh => by simp at hh, ?_, fun hh => by simp at hh, fun hh => by simp at hh⟩
    intro _
    exact ⟨c, rfl, hc0⟩
  | compare_not_allowed =>
    refine ⟨by simp [ALLOWED_TOOLS, fallback_compare_not_allowed],
      fun hh => by simp [fallback_compare_not_allowed] at hh, ?_,
      fun hh => by simp [fallback_compare_not_allowed] at hh,
      fun hh => by simp [fallback_compare_not_allowed] at hh,
      fun hh => by simp [fallback_compare_not_allowed] at hh⟩
    intro _
    exact ⟨⟨15, rfl, by omega, by omega⟩,
      fun v hv => ⟨"review_count", (Option.some.inj hv).symm, by decide⟩⟩
  | compare_ok a b r ha hb hab ha0 hb0 =>
    refine ⟨by simp [ALLOWED_TOOLS], fun hh => by simp at hh,
      fun hh => by simp at hh, fun hh => by simp at hh, fun hh => by simp at hh, ?_⟩
    intro _
    exact ⟨a, b, rfl, rfl, ha0, hb0, hab, ha, hb⟩
  | missing_category =>
    refine ⟨by simp [ALLOWED_TOOLS, fallback_missing_category],
      fun hh => by simp [fallback_missing_category] at hh, ?_,
      fun hh => by simp [fallback_missing_category] at hh,
      fun hh => by simp [fallback_missing_category] at hh,
      fun hh => by simp [fallback_missing_category] at hh⟩
    intro _
    exact ⟨⟨15, rfl, by omega, by omega⟩, fun v hv => Option.noConfusion hv⟩
  | category_not_allowed =>
    refine ⟨by simp [ALLOWED_TOOLS, fallback_category_not_allowed],
      fun hh => by simp [fallback_category_not_allowed] at hh, ?_,
      fun hh => by simp [fallback_category_not_allowed] at hh,
      fun hh => by simp [fallback_category_not_allowed] at hh,
      fun hh => by simp [fallback_category_not_allowed] at hh⟩
    intro _
    exact ⟨⟨15, rfl, by omega, by omega⟩, fun v hv => Option.noConfusion hv⟩
  | sentiment_ok c k r hc hc0 h1 h2 =>
    refine ⟨by simp [ALLOWED_TOOLS], fun hh => by simp at hh,
      fun hh => by simp at hh, fun hh => by simp at hh, ?_, fun hh => by simp at hh⟩
    intro _
    exact ⟨⟨c, rfl, hc0, hc⟩, ⟨k, rfl, h1, h2⟩⟩
  | rating_ok c r hc hc0 =>
    refine ⟨by simp [ALLOWED_TOOLS], fun hh => by simp at hh,
      fun hh => by simp at hh, ?_, fun hh => by simp at hh, fun hh => by simp at hh⟩
    intro _
    exact ⟨c, rfl, hc0⟩
  | default_fb =>
    refine ⟨by simp [ALLOWED_TOOLS, fallback_default],
      fun hh => by simp [fallback_default] at hh, ?_,
      fun hh => by simp [fallback_default] at hh,
      fun hh => by simp [fallback_default] at hh,
      fun hh => by simp [fallback_default] at hh⟩
    intro _
    exact ⟨⟨15, rfl, by omega, by omega⟩,
      fun v hv => ⟨"review_count", (Option.some.inj hv).symm, by decide⟩⟩

/-- C2 (amended): `validate_tool_call` is not total — on an unhashable
(list/dict) `tool`, `query_type` or `metric` value its set-membership
tests raise TypeError (`validate_raises`); on every input where it does
return, the returned call's tool is in the closed vocabulary and its args
satisfy the per-tool field constraints, except that a
`rating_distribution` category produced by the equal-category compare
downgrade is only guaranteed non-empty, not allowed. -/
theorem C2_validator_totality_amended (tc : PyDict) (allowed : List String) :
    (validate_raises tc = false →
      validate_tool_call_total_or_raise tc allowed = some (validate_tool_call tc allowed) ∧
      (validate_tool_call tc allowed).tool ∈ ALLOWED_TOOLS ∧
      CodeFieldConstraints allowed (validate_tool_call tc allowed)) ∧
    (validate_raises tc = true →
      validate_tool_call_total_or_raise tc allowed = Option.none) := by
  constructor
  · intro h
    refine ⟨by simp [validate_tool_call_total_or_raise, h], ?_, ?_⟩
    · exact (constraints_of_outcome allowed (validate_tool_call tc allowed)
        (validate_tool_call_outcome tc allowed)).1
    · exact (constraints_of_outcome allowed (validate_tool_call tc allowed)
        (validate_tool_call_outcome tc allowed)).2
  · intro h
    simp [validate_tool_call_total_or_raise, h]

/-- Witness for the amended C2: a well-typed metrics call passes the
raise check and validates into the closed vocabulary, while a list-valued
tool makes the source raise (modelled as `Option.none`). -/
theorem C2_validator_totality_amended_witness :
    validate_raises [("tool", PyVal.str "metrics_top_categories"),
      ("args", PyVal.dict [("top_n", PyVal.int 30), ("metric", PyVal.str "nps")])] = false ∧
    validate_tool_call_total_or_raise
      [("tool", PyVal.str "metrics_top_categories"),
       ("args", PyVal.dict [("top_n", PyVal.int 30), ("metric", PyVal.str "nps")])] ["Books"] =
      some (validate_tool_call
        [("tool", PyVal.str "metrics_top_categories"),
         ("args", PyVal.dict [("top_n", PyVal.int 30), ("metric", PyVal.str "nps")])] ["Books"]) ∧
    (validate_tool_call
      [("tool", PyVal.str "metrics_top_categories"),
       ("args", PyVal.dict [("top_n", PyVal.int 30), ("metric", PyVal.str "nps")])]
      ["Books"]).tool ∈ ALLOWED_TOOLS ∧
    validate_raises [("tool", PyVal.list [PyVal.str "x"])] = true ∧
    validate_tool_call_total_or_raise [("tool", PyVal.list [PyVal.str "x"])] ["Books"] =
      Option.none := by
  have h1 := C2_validator_totality_amended
    [("tool", PyVal.str "metrics_top_categories"),
     ("args", PyVal.dict [("top_n", PyVal.int 30), ("metric", PyVal.str "nps")])] ["Books"]
  have h2 := C2_validator_totality_amended [("tool", PyVal.list [PyVal.str "x"])] ["Books"]
  exact ⟨rfl, (h1.1 rfl).1, (h1.1 rfl).2.1, rfl, h2.2 rfl⟩

/-! ## C7: state-aware acknowledgment -/

/-- Helper for C7: a metrics call whose `top_n`/`metric` args equal the
captured state produces the "already up to date" acknowledgment; the state
update still clears `compare_pair` and leaves the other three fields
unchanged (fully unchanged when no compare pair was active). -/
lemma state_ack_helper (vc : ValidatedCall) (s : PlotState) (txt : String)
    (htool : vc.tool = "metrics_top_categories")
    (htn : dictGet vc.args "top_n" = some (PyVal.int s.top_n))
    (hm : dictGet vc.args "metric" = some (PyVal.str s.top_metric))
    (hlo : 5 ≤ s.top_n) (hhi : s.top_n ≤ 50) :
    apply_state_aware_response vc.tool vc.args s txt =
      "This view is already up to date. Check the chart on the left." ∧
    apply_plot_interactions vc s = { s with compare_pair := Option.none } ∧
    (s.compare_pair = Option.none → apply_plot_interactions vc s = s) := by
  have hclamp : max 5 (min 50 s.top_n) = s.top_n := by omega
  have happ : apply_plot_interactions vc s = { s with compare_pair := Option.none } := by
    unfold apply_plot_interactions
    rw [htool]
    dsimp only
    rw [if_neg (by decide), if_pos rfl, if_neg (by decide), htn, hm]
    dsimp only
    rw [hclamp]
    by_cases hmem : s.top_metric ∈ METRICS
    · rw [if_pos hmem]
    · rw [if_neg hmem]
  refine ⟨?_, happ, fun hc => by rw [happ, ← hc]⟩
  rw [htool]
  unfold apply_state_aware_response
  rw [if_neg (by decide), if_pos rfl, hm, htn]
  simp

/-- Counterexample input for C7: a `metrics_top_categories` candidate whose
`top_n`/`metric` match the active view. -/
def sameTopTc : PyDict :=
  [("tool", PyVal.str "metrics_top_categories"),
   ("args", PyVal.dict [("top_n", PyVal.int 15), ("metric", PyVal.str "review_count")])]

/-- Counterexample to C7 as stated: with an active compare pair, the
same-state metrics call produces the "already up to date" acknowledgment,
yet the view state after the turn differs from the state before (the pair
is cleared). -/
theorem C7_counterexample :
    apply_state_aware_response (validate_tool_call sameTopTc ["Books"]).tool
      (validate_tool_call sameTopTc ["Books"]).args
      ⟨15, "review_count", some ("A", "B"), Option.none⟩ "original narrative" =
      "This view is already up to date. Check the chart on the left." ∧
    apply_plot_interactions (validate_tool_call sameTopTc ["Books"])
        ⟨15, "review_count", some ("A", "B"), Option.none⟩ ≠
      ⟨15, "review_count", some ("A", "B"), Option.none⟩ := by
  refine ⟨rfl, fun h => ?_⟩
  have hcp : (Option.none : Option (String × String)) = some ("A", "B") :=
    congrArg PlotState.compare_pair h
  exact Option.noConfusion hcp

/-- C7 (amended): applying a validated `metrics_top_categories` call whose
`top_n` and `metric` both equal the view state captured before the turn
produces the "already up to date" acknowledgment; the turn leaves `top_n`,
`top_metric` and `rating_dist_category` unchanged but still clears
`compare_pair`, so the full view state is unchanged exactly when no compare
pair was active. -/
theorem C7_state_idempotent_ack_amended (tc : PyDict) (allowed : List String)
    (s : PlotState) (txt : String)
    (htool : (validate_tool_call tc allowed).tool = "metrics_top_categories")
    (htn : dictGet (validate_tool_call tc allowed).args "top_n" =
      some (PyVal.int s.top_n))
    (hm : dictGet (validate_tool_call tc allowed).args "metric" =
      some (PyVal.str s.top_metric))
    (hlo : 5 ≤ s.top_n) (hhi : s.top_n ≤ 50) :
    apply_state_aware_response (validate_tool_call tc allowed).tool
      (validate_tool_call tc allowed).args s txt =
      "This view is already up to date. Check the chart on the left." ∧
    apply_plot_interactions (validate_tool_call tc allowed) s =
      { s with compare_pair := Option.none } ∧
    (s.compare_pair = Option.none →
      apply_plot_interactions (validate_tool_call tc allowed) s = s) :=
  state_ack_helper (validate_tool_call tc allowed) s txt htool htn hm hlo hhi

/-- Witness for the amended C7: with no active compare pair, the same-state
metrics call yields the acknowledgment and the state is fully unchanged. -/
theorem C7_state_idempotent_ack_amended_witness :
    apply_state_aware_response (validate_tool_call sameTopTc ["Books"]).tool
      (validate_tool_call sameTopTc ["Books"]).args
      ⟨15, "review_count", Option.none, Option.none⟩ "original narrative" =
      "This view is already up to date. Check the chart on the left." ∧
    apply_plot_interactions (validate_tool_call sameTopTc ["Books"])
        ⟨15, "review_count", Option.none, Option.none⟩ =
      ⟨15, "review_count", Option.none, Option.none⟩ := by
  have h := C7_state_idempotent_ack_amended sameTopTc ["Books"]
    ⟨15, "review_count", Option.none, Option.none⟩ "original narrative"
    rfl rfl rfl (by decide) (by decide)
  exact ⟨h.1, h.2.2 rfl⟩

/-! ## C5: compare-categories data error and session state -/

/-- Counterexample to C5 as stated: with an empty metrics frame the executor
returns the error payload, yet the per-turn state update
(Analytics_Chat.py lines 401-405) still sets `compare_pair` to the
validated pair — it neither clears nor leaves it, because it never looks at
the tool result. -/
theorem C5_counterexample :
    (dictGet (run_tool_compare_categories [] "A" "B") "error").isSome = true ∧
    (apply_plot_interactions (validate_tool_call (mkCompareTc "A" "B") ["A", "B"])
        ⟨15, "review_count", Option.none, Option.none⟩).compare_pair =
      some ("A", "B") :=
  ⟨rfl, rfl⟩

/-- C5 (amended): when either compared category has zero rows in the metrics
frame, `run_tool` returns a structured `error` payload rather than raising;
the per-turn caller nevertheless sets `compare_pair` to the validated pair
unconditionally, and the now-invalid pair is cleared only by the render
pass, which drops a pair whose categories have no metrics row. -/
theorem C5_compare_error_amended (mdf : List MetricsRow) (a b : String) (s : PlotState)
    (r : PyVal) (fb : Option String)
    (hz : (mdf.filter (fun row => row.category == a)).isEmpty = true ∨
          (mdf.filter (fun row => row.category == b)).isEmpty = true) :
    (dictGet (run_tool_compare_categories mdf a b) "error").isSome = true ∧
    (apply_plot_interactions
        ⟨"compare_categories",
         [("category_a", PyVal.str a), ("category_b", PyVal.str b)], r, fb⟩
        s).compare_pair = some (a, b) ∧
    resolve_compare_pair mdf (some (a, b)) = Option.none := by
  refine ⟨?_, ?_, ?_⟩
  · unfold run_tool_compare_categories
    dsimp only
    rw [if_pos (by rcases hz with h | h <;> simp [h])]
    rfl
  · rw [apply_compare_lit]
  · unfold resolve_compare_pair
    dsimp only
    rw [if_pos (show _ ∨ _ from hz)]

/-- Witness for the amended C5 at the empty metrics frame. -/
theorem C5_compare_error_amended_witness :
    (dictGet (run_tool_compare_categories [] "A" "B") "error").isSome = true ∧
    (apply_plot_interactions
        ⟨"compare_categories",
         [("category_a", PyVal.str "A"), ("category_b", PyVal.str "B")],
         PyVal.str "", Option.none⟩
        ⟨15, "review_count", Option.none, Option.none⟩).compare_pair =
      some ("A", "B") ∧
    resolve_compare_pair [] (some ("A", "B")) = Option.none :=
  C5_compare_error_amended [] "A" "B" ⟨15, "review_count", Option.none, Option.none⟩
    (PyVal.str "") Option.none (Or.inl rfl)

/-! ## src/src/sentiment_cache_service.py (with src/src/llm/sentiment.py) -/

/-- sentiment.py lines 38-41, `text_hash`: strip, lower-case, then the
SHA-256 hex digest of the UTF-8 bytes.  The digest is modelled as the
normalized text itself — a fixed injective encoding; no claim depends on
hash collisions. -/
def text_hash (review_text : String) : String :=
  pyLower (pyStrip review_text)

/-- One row of the `review_sentiment_cache` table as this service writes it
(`upsert_cache_row` is only ever called with a list of strings for
`reasons`, see sentiment_cache_service.py line 131). -/
structure CacheRow where
  model : String
  sentiment : String
  reasons : List String
  latency_ms : Option Int
deriving DecidableEq

/-- The cache table, keyed by `text_hash` (unique index). -/
abbrev CacheDB := List (String × CacheRow)

/-- Row lookup by hash (the per-hash view of `get_cached_many`). -/
def cacheGet (db : CacheDB) (h : String) : Option CacheRow :=
  (db.find? (fun kv => kv.1 == h)).map (fun kv => kv.2)

/-- sentiment_cache_service.py lines 19-47, `upsert_cache_row`:
`INSERT ... ON CONFLICT (text_hash) DO UPDATE` — replace the row under the
unique key, or append a new one. -/
def upsert_cache_row (db : CacheDB) (h : String) (model sentiment : String)
    (reasons : List String) (latency_ms : Option Int) : CacheDB :=
  match db with
  | [] => [(h, ⟨model, sentiment, reasons, latency_ms⟩)]
  | kv :: rest =>
    if kv.1 = h then (h, ⟨model, sentiment, reasons, latency_ms⟩) :: rest
    else kv :: upsert_cache_row rest h model sentiment reasons latency_ms

/-- `MODEL_NAME` (gemini_client.py line 4). -/
def MODEL_NAME : String := "gemini-2.5-flash-lite"

/-- sentiment_cache_service.py lines 64-81: keep only strings, strip, drop
blanks, deduplicate by content hash of the stripped text, and stop as soon
as `max_reviews` reviews are collected. -/
def clean_reviews : List PyVal → List String → List String → Nat → List String
  | [], _, clean, _ => clean
  | .str s :: rest, seen, clean, max_reviews =>
    if pyStrip s = "" then clean_reviews rest seen clean max_reviews
    else if text_hash (pyStrip s) ∈ seen then clean_reviews rest seen clean max_reviews
    else if max_reviews ≤ (clean ++ [pyStrip s]).length then clean ++ [pyStrip s]
    else clean_reviews rest (text_hash (pyStrip s) :: seen) (clean ++ [pyStrip s]) max_reviews
  | _ :: rest, seen, clean, max_reviews => clean_reviews rest seen clean max_reviews

/-- `collections.Counter`, as an insertion-ordered association list. -/
abbrev Counter := List (String × Nat)

/-- `counter[k] += 1`. -/
def counterAdd : Counter → String → Counter
  | [], k => [(k, 1)]
  | kv :: rest, k =>
    if kv.1 = k then (kv.1, kv.2 + 1) :: rest else kv :: counterAdd rest k

/-- The reason-counting pass (lines 96-98 and 143-145): skip entries that
are blank after stripping, count the stripped lower-cased phrase. -/
def countReasons (c : Counter) (rs : List String) : Counter :=
  rs.foldl (fun c rr => if pyStrip rr = "" then c else counterAdd c (pyLower (pyStrip rr))) c

/-- Stable insertion (by count, descending) used to model
`Counter.most_common`: an element goes after every earlier element whose
count is at least its own. -/
def insertByCount (x : String × Nat) : List (String × Nat) → List (String × Nat)
  | [] => [x]
  | y :: ys => if y.2 < x.2 then x :: y :: ys else y :: insertByCount x ys

/-- `Counter.most_common(n)`: stable sort by count descending, first `n`. -/
def most_common (c : Counter) (n : Nat) : List (String × Nat) :=
  (c.foldl (fun acc kv => insertByCount kv acc) []).take n

/-- `sum(counter.values())`. -/
def sumCounter (c : Counter) : Nat := (c.map (fun kv => kv.2)).sum

/-- sentiment_cache_service.py line 114:
`{o["idx"]: o for o in outputs if isinstance(o, dict) and "idx" in o}`
followed by `.get(local_idx)`.  In the comprehension a later entry with the
same key overwrites an earlier one, so `.get(i)` returns the last dict
whose `idx` equals the int `i` (Python numeric equality, so a float key
`3.0` matches `3`; unhashable keys, which would raise in the source, never
match). -/
def out_by_idx_get (outputs : List PyVal) (i : Nat) : Option PyDict :=
  outputs.reverse.findSome? (fun o =>
    match o with
    | .dict d =>
      match dictGet d "idx" with
      | some (.int j) => if j = (i : Int) then some d else Option.none
      | some (.float q) => if q = (i : ℚ) then some d else Option.none
      | _ => Option.none
    | _ => Option.none)

/-- sentiment_cache_service.py lines 118-131: fail-closed parsing of one
batch output entry into (sentiment, reasons).  Like `out_by_idx_get`, this
is total where the source is not: an unhashable sentiment value would make
the membership test `s in {positive, negative, neutral}` (line 126) raise
TypeError, which here collapses into the "neutral" default.  The batch
interface (`analyze_reviews_batch`, sentiment.py lines 144-167) only ever
yields string sentiments, so the collapsed corner is unreachable through
the repository's own oracle. -/
def parse_output (o : Option PyDict) : String × List String :=
  match o with
  | some d =>
    let sentiment :=
      match dictGet d "sentiment" with
      | some (.str s) => if s ∈ ["positive", "negative", "neutral"] then s else "neutral"
      | _ => "neutral"
    let rs :=
      match dictGet d "reasons" with
      | some (.list xs) =>
        xs.filterMap (fun v => match v with | .str s => some s | _ => Option.none)
      | _ => []
    (sentiment, rs)
  | Option.none => ("neutral", [])

/-- The mutable state threaded through the aggregation: the cache table and
the two counters. -/
structure AggState where
  db : CacheDB
  sentiments : Counter
  reasons : Counter
deriving DecidableEq

/-- Cache-hit accumulation (lines 93-98). -/
def hit_update (st : AggState) (row : CacheRow) : AggState :=
  { st with sentiments := counterAdd st.sentiments row.sentiment,
            reasons := countReasons st.reasons row.reasons }

/-- Cache-miss processing of one review (lines 116-145): upsert the cache
row with the reasons truncated to 3, but count the sentiment and the
untruncated reasons.  `latency_ms` is wall-clock time in the source; it is
never read back by the aggregation and is modelled as 0. -/
def miss_update (st : AggState) (h : String) (sentiment : String) (rs : List String) :
    AggState :=
  { db := upsert_cache_row st.db h MODEL_NAME sentiment (rs.take 3) (some 0),
    sentiments := counterAdd st.sentiments sentiment,
    reasons := countReasons st.reasons rs }

/-- One batch chunk (lines 105-147): one LLM call on the chunk's texts,
then per-item processing keyed by the chunk-local index. -/
def process_chunk (batch : List String → List PyVal) (hashes : List String)
    (st : AggState) (chunk : List (Nat × String)) : AggState :=
  let outputs := batch (chunk.map (fun it => it.2))
  (chunk.enum).foldl
    (fun st it =>
      miss_update st (hashes.getD it.2.1 "")
        (parse_output (out_by_idx_get outputs it.1)).1
        (parse_output (out_by_idx_get outputs it.1)).2) st

/-- `range(0, len(xs), batch_size)` slicing (line 105), fuel-based so that
it computes by reduction.  With `batch_size = 0` the source would raise
(`range` with step 0); here it yields no chunks. -/
def chunkListAux (bs : Nat) : Nat → List (Nat × String) → List (List (Nat × String))
  | 0, _ => []
  | _, [] => []
  | fuel + 1, xs => xs.take bs :: chunkListAux bs fuel (xs.drop bs)

/-- The chunk decomposition of the uncached items. -/
def chunkList (bs : Nat) (xs : List (Nat × String)) : List (List (Nat × String)) :=
  chunkListAux bs xs.length xs

/-- The payload returned by `analyze_reviews_with_cache` (lines 149-155).
`new_cache_rows` reports the `newly_cached` variable, which the source
never increments. -/
structure SentimentResult where
  review_count_analyzed : Nat
  sentiment_distribution : Counter
  top_reasons : List (String × Nat)
  new_cache_rows : Nat
  cache_hits : Nat
deriving DecidableEq

/-- sentiment_cache_service.py lines 50-155, `analyze_reviews_with_cache`,
with the external batch LLM call passed in as `batch` and the cache table
passed and returned explicitly.  `cached = get_cached_many(db, hashes)` is
a snapshot of the incoming table taken before any write, so the hit loop
reads the incoming `db`. -/
def analyze_reviews_with_cache (db : CacheDB) (reviews : List PyVal)
    (max_reviews batch_size : Nat) (batch : List String → List PyVal) :
    SentimentResult × CacheDB :=
  let clean := clean_reviews reviews [] [] max_reviews
  let hashes := clean.map text_hash
  let afterHits :=
    clean.enum.foldl
      (fun (acc : AggState × List (Nat × String)) it =>
        match cacheGet db (hashes.getD it.1 "") with
        | some row => (hit_update acc.1 row, acc.2)
        | Option.none => (acc.1, acc.2 ++ [it]))
      (⟨db, [], []⟩, [])
  let chunks := chunkList batch_size afterHits.2
  let final := chunks.foldl (process_chunk batch hashes) afterHits.1
  (⟨sumCounter final.sentiments,
    final.sentiments,
    most_common final.reasons 10,
    0,
    clean.length - afterHits.2.length⟩,
   final.db)

/-! ## Cache-service proof infrastructure -/

lemma cacheGet_cons (kv : String × CacheRow) (rest : CacheDB) (h : String) :
    cacheGet (kv :: rest) h = if kv.1 = h then some kv.2 else cacheGet rest h := by
  unfold cacheGet
  by_cases hk : kv.1 = h
  · rw [List.find?_cons_of_pos _ (by simpa using hk), if_pos hk]
    rfl
  · rw [List.find?_cons_of_neg _ (by simpa using hk), if_neg hk]

lemma cacheGet_upsert_self (db : CacheDB) (h : String) (m s : String)
    (rs : List String) (l : Option Int) :
    cacheGet (upsert_cache_row db h m s rs l) h = some ⟨m, s, rs, l⟩ := by
  induction db with
  | nil =>
    show cacheGet ((h, ⟨m, s, rs, l⟩) :: []) h = _
    rw [cacheGet_cons, if_pos rfl]
  | cons kv rest ih =>
    by_cases hk : kv.1 = h
    · show cacheGet (if kv.1 = h then _ :: rest else _) h = _
      rw [if_pos hk, cacheGet_cons, if_pos rfl]
    · show cacheGet (if kv.1 = h then _ else kv :: upsert_cache_row rest h m s rs l) h = _
      rw [if_neg hk, cacheGet_cons, if_neg hk]
      exact ih

lemma cacheGet_upsert_ne (db : CacheDB) (h h' : String) (m s : String)
    (rs : List String) (l : Option Int) (hne : h' ≠ h) :
    cacheGet (upsert_cache_row db h m s rs l) h' = cacheGet db h' := by
  induction db with
  | nil =>
    show cacheGet ((h, ⟨m, s, rs, l⟩) :: []) h' = cacheGet [] h'
    rw [cacheGet_cons, if_neg (fun hh => hne hh.symm)]
  | cons kv rest ih =>
    by_cases hk : kv.1 = h
    · show cacheGet (if kv.1 = h then (h, ⟨m, s, rs, l⟩) :: rest
          else kv :: upsert_cache_row rest h m s rs l) h' = cacheGet (kv :: rest) h'
      rw [if_pos hk, cacheGet_cons, cacheGet_cons,
        if_neg (fun hh => hne hh.symm), if_neg (hk ▸ fun hh => hne hh.symm)]
    · show cacheGet (if kv.1 = h then (h, ⟨m, s, rs, l⟩) :: rest
          else kv :: upsert_cache_row rest h m s rs l) h' = cacheGet (kv :: rest) h'
      rw [if_neg hk, cacheGet_cons, cacheGet_cons, ih]

lemma sumCounter_counterAdd (c : Counter) (k : String) :
    sumCounter (counterAdd c k) = sumCounter c + 1 := by
  induction c with
  | nil => simp [counterAdd, sumCounter]
  | cons kv rest ih =>
    by_cases hk : kv.1 = k
    · simp [counterAdd, hk, sumCounter]
      omega
    · simp only [counterAdd, if_neg hk]
      simp [sumCounter] at ih ⊢
      omega

/-- The flat list of per-review (hash, sentiment, reasons) triples that a
sequence of batch chunks processes, in order. -/
def chunk_items (batch : List String → List PyVal) (hashes : List String)
    (chunk : List (Nat × String)) : List (String × String × List String) :=
  (chunk.enum).map (fun it =>
    (hashes.getD it.2.1 "",
     parse_output (out_by_idx_get (batch (chunk.map (fun x => x.2))) it.1)))

def flat_items (batch : List String → List PyVal) (hashes : List String)
    (chunks : List (List (Nat × String))) : List (String × String × List String) :=
  (chunks.map (chunk_items batch hashes)).flatten

/-- The per-item cache-miss step over a parsed triple. -/
def missStep (st : AggState) (it : String × String × List String) : AggState :=
  miss_update st it.1 it.2.1 it.2.2

lemma process_chunk_eq_foldl (batch : List String → List PyVal) (hashes : List String)
    (st : AggState) (chunk : List (Nat × String)) :
    process_chunk batch hashes st chunk =
      (chunk_items batch hashes chunk).foldl missStep st := by
  unfold process_chunk chunk_items
  rw [List.foldl_map]
  rfl

lemma chunks_foldl_eq_flat (batch : List String → List PyVal) (hashes : List String)
    (chunks : List (List (Nat × String))) (st : AggState) :
    chunks.foldl (process_chunk batch hashes) st =
      (flat_items batch hashes chunks).foldl missStep st := by
  induction chunks generalizing st with
  | nil => rfl
  | cons chunk rest ih =>
    simp only [List.foldl_cons, flat_items, List.map_cons, List.flatten_cons,
      List.foldl_append]
    rw [process_chunk_eq_foldl]
    exact ih _

/-- Components of the flat miss fold: the cache, sentiment counter and
reason counter evolve independently. -/
lemma flat_fold_components (items : List (String × String × List String))
    (st : AggState) :
    items.foldl missStep st =
      ⟨items.foldl
         (fun d it => upsert_cache_row d it.1 MODEL_NAME it.2.1 (it.2.2.take 3) (some 0))
         st.db,
       items.foldl (fun c it => counterAdd c it.2.1) st.sentiments,
       items.foldl (fun c it => countReasons c it.2.2) st.reasons⟩ := by
  induction items generalizing st with
  | nil => rfl
  | cons it rest ih =>
    simp only [List.foldl_cons]
    rw [ih]
    rfl

lemma db_fold_lookup_notmem (items : List (String × String × List String))
    (d : CacheDB) (h : String) (hnot : h ∉ items.map (fun it => it.1)) :
    cacheGet
      (items.foldl
        (fun d it => upsert_cache_row d it.1 MODEL_NAME it.2.1 (it.2.2.take 3) (some 0)) d)
      h = cacheGet d h := by
  induction items generalizing d with
  | nil => rfl
  | cons it rest ih =>
    simp only [List.map_cons, List.mem_cons] at hnot
    push_neg at hnot
    simp only [List.foldl_cons]
    rw [ih _ hnot.2, cacheGet_upsert_ne _ _ _ _ _ _ _ hnot.1]

/-- After the miss fold, each processed hash maps to the row written for it
(hashes are distinct, so no later write clobbers an earlier one). -/
lemma db_fold_lookup (items : List (String × String × List String)) (d : CacheDB)
    (hnd : (items.map (fun it => it.1)).Nodup) :
    ∀ it ∈ items,
      cacheGet
        (items.foldl
          (fun d it => upsert_cache_row d it.1 MODEL_NAME it.2.1 (it.2.2.take 3) (some 0)) d)
        it.1 = some ⟨MODEL_NAME, it.2.1, it.2.2.take 3, some 0⟩ := by
  induction items generalizing d with
  | nil => intro it hit; cases hit
  | cons x rest ih =>
    simp only [List.map_cons, List.nodup_cons] at hnd
    intro it hit
    rcases List.mem_cons.mp hit with rfl | hmem
    · simp only [List.foldl_cons]
      rw [db_fold_lookup_notmem _ _ _ hnd.1]
      exact cacheGet_upsert_self _ _ _ _ _ _
    · simp only [List.foldl_cons]
      exact ih _ hnd.2 it hmem

lemma chunkListAux_flatten (bs : Nat) (hbs : 1 ≤ bs) :
    ∀ (fuel : Nat) (xs : List (Nat × String)), xs.length ≤ fuel →
      (chunkListAux bs fuel xs).flatten = xs := by
  intro fuel
  induction fuel with
  | zero =>
    intro xs h
    have : xs = [] := List.eq_nil_of_length_eq_zero (Nat.le_zero.mp h)
    subst this
    rfl
  | succ n ih =>
    intro xs h
    cases xs with
    | nil => rfl
    | cons x xs' =>
      show (List.take bs (x :: xs') :: chunkListAux bs n (List.drop bs (x :: xs'))).flatten
          = x :: xs'
      rw [List.flatten_cons, ih _ (by simp [List.length_drop] at h ⊢; omega),
        List.take_append_drop]

lemma chunkList_flatten (bs : Nat) (hbs : 1 ≤ bs) (xs : List (Nat × String)) :
    (chunkList bs xs).flatten = xs :=
  chunkListAux_flatten bs hbs xs.length xs le_rfl

/-- The cleaned review list never exceeds `max_reviews` (callers always pass
`max_reviews ≥ 1`; the loop appends before testing the bound). -/
lemma clean_reviews_length (reviews : List PyVal) :
    ∀ (seen clean : List String) (max_reviews : Nat), clean.length < max_reviews →
      (clean_reviews reviews seen clean max_reviews).length ≤ max_reviews := by
  induction reviews with
  | nil => intro seen clean max_reviews h; exact Nat.le_of_lt h
  | cons r rest ih =>
    intro seen clean max_reviews h
    cases r with
    | str s =>
      simp only [clean_reviews]
      by_cases h1 : pyStrip s = ""
      · rw [if_pos h1]; exact ih _ _ _ h
      · rw [if_neg h1]
        by_cases h2 : text_hash (pyStrip s) ∈ seen
        · rw [if_pos h2]; exact ih _ _ _ h
        · rw [if_neg h2]
          by_cases h3 : max_reviews ≤ (clean ++ [pyStrip s]).length
          · rw [if_pos h3]
            simp at h3 ⊢
            omega
          · rw [if_neg h3]
            exact ih _ _ _ (by simp at h3 ⊢; omega)
    | none => exact ih _ _ _ h
    | int n => exact ih _ _ _ h
    | float q => exact ih _ _ _ h
    | list xs => exact ih _ _ _ h
    | dict kvs => exact ih _ _ _ h

/-- The cleaned reviews have pairwise distinct content hashes. -/
lemma clean_reviews_nodup (reviews : List PyVal) :
    ∀ (seen clean : List String) (max_reviews : Nat),
      (∀ x ∈ clean, text_hash x ∈ seen) →
      ((clean.map text_hash).Nodup) →
      (((clean_reviews reviews seen clean max_reviews).map text_hash).Nodup) := by
  induction reviews with
  | nil => intro seen clean max_reviews _ hnd; exact hnd
  | cons r rest ih =>
    intro seen clean max_reviews hsub hnd
    cases r with
    | str s =>
      simp only [clean_reviews]
      by_cases h1 : pyStrip s = ""
      · rw [if_pos h1]; exact ih _ _ _ hsub hnd
      · rw [if_neg h1]
        by_cases h2 : text_hash (pyStrip s) ∈ seen
        · rw [if_pos h2]; exact ih _ _ _ hsub hnd
        · rw [if_neg h2]
          have hnd2 : ((clean ++ [pyStrip s]).map text_hash).Nodup := by
            simp only [List.map_append, List.map_cons, List.map_nil]
            rw [List.nodup_append]
            refine ⟨hnd, List.nodup_singleton _, ?_⟩
            intro y hy
            simp only [List.mem_singleton]
            intro hzz
            rcases List.mem_map.mp hy with ⟨x, hx, rfl⟩
            exact h2 (hzz ▸ hsub x hx)
          by_cases h3 : max_reviews ≤ (clean ++ [pyStrip s]).length
          · rw [if_pos h3]; exact hnd2
          · rw [if_neg h3]
            refine ih _ _ _ ?_ hnd2
            intro x hx
            rcases List.mem_append.mp hx with hx | hx
            · exact List.mem_cons_of_mem _ (hsub x hx)
            · simp only [List.mem_singleton] at hx
              subst hx
              exact List.mem_cons_self _ _
    | none => exact ih _ _ _ hsub hnd
    | int n => exact ih _ _ _ hsub hnd
    | float q => exact ih _ _ _ hsub hnd
    | list xs => exact ih _ _ _ hsub hnd
    | dict kvs => exact ih _ _ _ hsub hnd

/-- Every cleaned review is either carried over from the accumulator or is
the non-blank trim of a string entry of the input. -/
lemma clean_reviews_mem (reviews : List PyVal) :
    ∀ (seen clean : List String) (max_reviews : Nat),
      ∀ r ∈ clean_reviews reviews seen clean max_reviews,
        r ∈ clean ∨ (r ≠ "" ∧ ∃ s, PyVal.str s ∈ reviews ∧ r = pyStrip s) := by
  induction reviews with
  | nil => intro seen clean max_reviews r hr; exact Or.inl hr
  | cons x rest ih =>
    intro seen clean max_reviews r hr
    have step : ∀ q ∈ clean_reviews rest seen clean max_reviews,
        q ∈ clean ∨ (q ≠ "" ∧ ∃ s, PyVal.str s ∈ x :: rest ∧ q = pyStrip s) := by
      intro q hq
      rcases ih _ _ _ q hq with hq | ⟨hne, s, hs, rfl⟩
      · exact Or.inl hq
      · exact Or.inr ⟨hne, s, List.mem_cons_of_mem _ hs, rfl⟩
    cases x with
    | str s =>
      simp only [clean_reviews] at hr
      by_cases h1 : pyStrip s = ""
      · rw [if_pos h1] at hr
        exact step r hr
      · rw [if_neg h1] at hr
        by_cases h2 : text_hash (pyStrip s) ∈ seen
        · rw [if_pos h2] at hr
          exact step r hr
        · rw [if_neg h2] at hr
          have base : r ∈ clean ++ [pyStrip s] →
              r ∈ clean ∨ (r ≠ "" ∧ ∃ t, PyVal.str t ∈ PyVal.str s :: rest ∧ r = pyStrip t) := by
            intro hmem
            rcases List.mem_append.mp hmem with hmem | hmem
            · exact Or.inl hmem
            · simp only [List.mem_singleton] at hmem
              subst hmem
              exact Or.inr ⟨h1, s, List.mem_cons_self _ _, rfl⟩
          by_cases h3 : max_reviews ≤ (clean ++ [pyStrip s]).length
          · rw [if_pos h3] at hr
            exact base hr
          · rw [if_neg h3] at hr
            rcases ih _ _ _ r hr with hmem | ⟨hne, t, ht, rfl⟩
            · exact base hmem
            · exact Or.inr ⟨hne, t, List.mem_cons_of_mem _ ht, rfl⟩
    | none => exact step r (by simpa [clean_reviews] using hr)
    | int n => exact step r (by simpa [clean_reviews] using hr)
    | float q => exact step r (by simpa [clean_reviews] using hr)
    | list xs => exact step r (by simpa [clean_reviews] using hr)
    | dict kvs => exact step r (by simpa [clean_reviews] using hr)

/-- Appending a review whose content hash is already covered (or that is
not a non-blank string) does not change the cleaned list. -/
lemma clean_reviews_dup (reviews : List PyVal) :
    ∀ (s : String) (seen clean : List String) (max_reviews : Nat),
      (∀ x ∈ clean, text_hash x ∈ seen) →
      (text_hash (pyStrip s) ∈
          (clean_reviews reviews seen clean max_reviews).map text_hash ∨
        text_hash (pyStrip s) ∈ seen) →
      clean_reviews (reviews ++ [PyVal.str s]) seen clean max_reviews =
        clean_reviews reviews seen clean max_reviews := by
  induction reviews with
  | nil =>
    intro s seen clean max_reviews hsub hdup
    have hseen : text_hash (pyStrip s) ∈ seen := by
      rcases hdup with h | h
      · rcases List.mem_map.mp h with ⟨x, hx, hh⟩
        exact hh ▸ hsub x hx
      · exact h
    show clean_reviews [PyVal.str s] seen clean max_reviews = clean
    simp only [clean_reviews]
    by_cases h1 : pyStrip s = ""
    · rw [if_pos h1]
    · rw [if_neg h1, if_pos hseen]
  | cons x rest ih =>
    intro s seen clean max_reviews hsub hdup
    cases x with
    | str t =>
      show clean_reviews (PyVal.str t :: (rest ++ [PyVal.str s])) seen clean max_reviews = _
      simp only [clean_reviews] at hdup ⊢
      split_ifs with h1 h2 h3
      · exact ih s _ _ _ hsub (by simpa only [if_pos h1] using hdup)
      · exact ih s _ _ _ hsub (by simpa only [if_neg h1, if_pos h2] using hdup)
      · rfl
      · refine ih s _ _ _ ?_ ?_
        · intro y hy
          rcases List.mem_append.mp hy with hy | hy
          · exact List.mem_cons_of_mem _ (hsub y hy)
          · simp only [List.mem_singleton] at hy
            subst hy
            exact List.mem_cons_self _ _
        · have hdup2 := hdup
          simp only [if_neg h1, if_neg h2, if_neg h3] at hdup2
          rcases hdup2 with h | h
          · exact Or.inl h
          · exact Or.inr (List.mem_cons_of_mem _ h)
    | none => exact ih s _ _ _ hsub hdup
    | int n => exact ih s _ _ _ hsub hdup
    | float q => exact ih s _ _ _ hsub hdup
    | list xs => exact ih s _ _ _ hsub hdup
    | dict kvs => exact ih s _ _ _ hsub hdup

/-- Index lookups into `hashes = clean.map text_hash` along `clean.enum`. -/
lemma enum_getD_hash (clean : List String) :
    ∀ it ∈ clean.enum, (clean.map text_hash).getD it.1 "" = text_hash it.2 := by
  intro it hit
  have h1 : clean[it.1]? = some it.2 := List.mem_enum_iff_getElem?.mp hit
  rw [List.getD_eq_getElem?_getD, List.getElem?_map, h1]
  rfl

lemma enum_hashes_map (clean : List String) :
    clean.enum.map (fun x => (clean.map text_hash).getD x.1 "") = clean.map text_hash := by
  rw [List.map_congr_left (fun it hit => enum_getD_hash clean it hit)]
  show clean.enum.map (text_hash ∘ Prod.snd) = _
  rw [← List.map_map, List.enum_map_snd]

lemma chunk_items_fst (batch : List String → List PyVal) (hashes : List String)
    (chunk : List (Nat × String)) :
    (chunk_items batch hashes chunk).map (fun it => it.1) =
      chunk.map (fun x => hashes.getD x.1 "") := by
  unfold chunk_items
  rw [List.map_map]
  conv_rhs => rw [← List.enum_map_snd chunk, List.map_map]
  rfl

lemma flat_items_fst (batch : List String → List PyVal) (hashes : List String)
    (chunks : List (List (Nat × String))) :
    (flat_items batch hashes chunks).map (fun it => it.1) =
      chunks.flatten.map (fun x => hashes.getD x.1 "") := by
  unfold flat_items
  rw [List.map_flatten, List.map_map, List.map_flatten]
  congr 1
  exact List.map_congr_left (fun c _ => chunk_items_fst batch hashes c)

/-- Every item of `flat_items` carries a parse of some batch output. -/
lemma flat_items_parse (batch : List String → List PyVal) (hashes : List String)
    (chunks : List (List (Nat × String))) :
    ∀ it ∈ flat_items batch hashes chunks,
      ∃ texts i, it.2 = parse_output (out_by_idx_get (batch texts) i) := by
  intro it hit
  unfold flat_items at hit
  rcases List.mem_flatten.mp hit with ⟨l, hl, hitl⟩
  rcases List.mem_map.mp hl with ⟨chunk, hc, rfl⟩
  rcases List.mem_map.mp hitl with ⟨e, he, rfl⟩
  exact ⟨chunk.map (fun x => x.2), e.1, rfl⟩

/-- The hit loop when every lookup misses: state unchanged, all items
appended to the uncached accumulator. -/
lemma hit_loop_all_none (db : CacheDB) (hashes : List String) :
    ∀ (l : List (Nat × String)),
      (∀ it ∈ l, cacheGet db (hashes.getD it.1 "") = Option.none) →
      ∀ (p : AggState × List (Nat × String)),
        l.foldl
          (fun (acc : AggState × List (Nat × String)) it =>
            match cacheGet db (hashes.getD it.1 "") with
            | some row => (hit_update acc.1 row, acc.2)
            | Option.none => (acc.1, acc.2 ++ [it])) p = (p.1, p.2 ++ l) := by
  intro l
  induction l with
  | nil => intro _ p; simp
  | cons x l' ih =>
    intro hmiss p
    rw [List.foldl_cons]
    have hx := hmiss x (List.mem_cons_self _ _)
    rw [show (match cacheGet db (hashes.getD x.1 "") with
        | some row => (hit_update p.1 row, p.2)
        | Option.none => (p.1, p.2 ++ [x])) = (p.1, p.2 ++ [x]) from by rw [hx]]
    rw [ih (fun it hit => hmiss it (List.mem_cons_of_mem _ hit)) _]
    simp

/-- The hit loop when every lookup hits the given rows (in order): the rows
are accumulated and nothing is appended to the uncached list. -/
lemma hit_loop_all_some (db : CacheDB) (hashes : List String) :
    ∀ (l : List (Nat × String)) (rows : List CacheRow),
      l.map (fun it => cacheGet db (hashes.getD it.1 "")) = rows.map some →
      ∀ (p : AggState × List (Nat × String)),
        l.foldl
          (fun (acc : AggState × List (Nat × String)) it =>
            match cacheGet db (hashes.getD it.1 "") with
            | some row => (hit_update acc.1 row, acc.2)
            | Option.none => (acc.1, acc.2 ++ [it])) p =
          (rows.foldl hit_update p.1, p.2) := by
  intro l
  induction l with
  | nil =>
    intro rows h p
    cases rows with
    | nil => simp
    | cons r rows' => simp at h
  | cons x l' ih =>
    intro rows h p
    cases rows with
    | nil => simp at h
    | cons row rows' =>
      simp only [List.map_cons, List.cons.injEq] at h
      rw [List.foldl_cons]
      rw [show (match cacheGet db (hashes.getD x.1 "") with
          | some row => (hit_update p.1 row, p.2)
          | Option.none => (p.1, p.2 ++ [x])) = (hit_update p.1 row, p.2) from by rw [h.1]]
      rw [ih rows' h.2 _, List.foldl_cons]

/-- Components of the hit fold. -/
lemma hit_fold_components (rows : List CacheRow) (st : AggState) :
    rows.foldl hit_update st =
      ⟨st.db,
       rows.foldl (fun c r => counterAdd c r.sentiment) st.sentiments,
       rows.foldl (fun c r => countReasons c r.reasons) st.reasons⟩ := by
  induction rows generalizing st with
  | nil => rfl
  | cons r rest ih =>
    simp only [List.foldl_cons]
    rw [ih]
    rfl

lemma sents_fold_length (items : List (String × String × List String)) :
    ∀ c : Counter,
      sumCounter (items.foldl (fun c it => counterAdd c it.2.1) c) =
        sumCounter c + items.length := by
  induction items with
  | nil => intro c; simp
  | cons it rest ih =>
    intro c
    rw [List.foldl_cons, ih, sumCounter_counterAdd]
    simp
    omega

/-- The flat item list of the first (empty-cache) run. -/
def run1_flat (batch : List String → List PyVal) (reviews : List PyVal)
    (max_reviews batch_size : Nat) : List (String × String × List String) :=
  flat_items batch ((clean_reviews reviews [] [] max_reviews).map text_hash)
    (chunkList batch_size (clean_reviews reviews [] [] max_reviews).enum)

/-- Closed form of the first run: with an empty cache every review misses,
so the result is the miss fold over the flat item list. -/
lemma run1_eq (reviews : List PyVal) (max_reviews batch_size : Nat)
    (batch : List String → List PyVal) :
    analyze_reviews_with_cache [] reviews max_reviews batch_size batch =
      (⟨sumCounter ((run1_flat batch reviews max_reviews batch_size).foldl
          (fun c it => counterAdd c it.2.1) []),
        (run1_flat batch reviews max_reviews batch_size).foldl
          (fun c it => counterAdd c it.2.1) [],
        most_common ((run1_flat batch reviews max_reviews batch_size).foldl
          (fun c it => countReasons c it.2.2) []) 10,
        0,
        (clean_reviews reviews [] [] max_reviews).length -
          (clean_reviews reviews [] [] max_reviews).enum.length⟩,
       (run1_flat batch reviews max_reviews batch_size).foldl
         (fun d it => upsert_cache_row d it.1 MODEL_NAME it.2.1 (it.2.2.take 3) (some 0))
         []) := by
  unfold analyze_reviews_with_cache run1_flat
  dsimp only
  rw [hit_loop_all_none [] ((clean_reviews reviews [] [] max_reviews).map text_hash)
    (clean_reviews reviews [] [] max_reviews).enum (fun it _ => rfl) _]
  dsimp only
  rw [List.nil_append, chunks_foldl_eq_flat, flat_fold_components]

/-- A batch oracle that returns four reason phrases for the first review. -/
def fourReasonBatch : List String → List PyVal := fun _ =>
  [PyVal.dict [("idx", PyVal.int 0), ("sentiment", PyVal.str "positive"),
    ("reasons", PyVal.list [PyVal.str "a", PyVal.str "b", PyVal.str "c", PyVal.str "d"])]]

/-- Counterexample to C3 as stated: with a batch output carrying four
reasons, the first (empty-cache) run counts all four but persists only the
first three, so the second (cache-hit) run reports different
`top_reasons`. -/
theorem C3_counterexample :
    (analyze_reviews_with_cache
        (analyze_reviews_with_cache [] [PyVal.str "good product"] 50 10 fourReasonBatch).2
        [PyVal.str "good product"] 50 10 fourReasonBatch).1.top_reasons ≠
      (analyze_reviews_with_cache [] [PyVal.str "good product"] 50 10
        fourReasonBatch).1.top_reasons := by
  decide

/-- C3 (amended): re-running the aggregation over the cache produced by a
first empty-cache run yields the same `sentiment_distribution` always, and
the same `top_reasons` whenever every parsed batch output carries at most 3
reasons (which the repository's `analyze_reviews_batch` guarantees); with
more than 3 reasons the first run counts them all but persists only the
first three. -/
theorem C3_cache_idempotence_amended (reviews : List PyVal)
    (max_reviews batch_size : Nat) (batch : List String → List PyVal)
    (hbs : 1 ≤ batch_size)
    (h3 : ∀ texts i, ((parse_output (out_by_idx_get (batch texts) i)).2).length ≤ 3) :
    (analyze_reviews_with_cache
        (analyze_reviews_with_cache [] reviews max_reviews batch_size batch).2
        reviews max_reviews batch_size batch).1.sentiment_distribution =
      (analyze_reviews_with_cache [] reviews max_reviews batch_size
        batch).1.sentiment_distribution ∧
    (analyze_reviews_with_cache
        (analyze_reviews_with_cache [] reviews max_reviews batch_size batch).2
        reviews max_reviews batch_size batch).1.top_reasons =
      (analyze_reviews_with_cache [] reviews max_reviews batch_size
        batch).1.top_reasons := by
  have h1 := run1_eq reviews max_reviews batch_size batch
  have hfst : (run1_flat batch reviews max_reviews batch_size).map (fun it => it.1) =
      (clean_reviews reviews [] [] max_reviews).map text_hash := by
    unfold run1_flat
    rw [flat_items_fst, chunkList_flatten _ hbs, enum_hashes_map]
  have hnd : ((run1_flat batch reviews max_reviews batch_size).map (fun it => it.1)).Nodup := by
    rw [hfst]
    exact clean_reviews_nodup reviews [] [] max_reviews (by simp) (by simp)
  have hlook := db_fold_lookup (run1_flat batch reviews max_reviews batch_size) [] hnd
  have hmapeq : (clean_reviews reviews [] [] max_reviews).enum.map
      (fun it => cacheGet
        ((run1_flat batch reviews max_reviews batch_size).foldl
          (fun d it => upsert_cache_row d it.1 MODEL_NAME it.2.1 (it.2.2.take 3) (some 0)) [])
        (((clean_reviews reviews [] [] max_reviews).map text_hash).getD it.1 "")) =
      ((run1_flat batch reviews max_reviews batch_size).map
        (fun it => (⟨MODEL_NAME, it.2.1, it.2.2.take 3, some 0⟩ : CacheRow))).map some := by
    have e1 : (fun it : Nat × String => cacheGet
        ((run1_flat batch reviews max_reviews batch_size).foldl
          (fun d it => upsert_cache_row d it.1 MODEL_NAME it.2.1 (it.2.2.take 3) (some 0)) [])
        (((clean_reviews reviews [] [] max_reviews).map text_hash).getD it.1 "")) =
        (cacheGet ((run1_flat batch reviews max_reviews batch_size).foldl
          (fun d it => upsert_cache_row d it.1 MODEL_NAME it.2.1 (it.2.2.take 3) (some 0)) [])) ∘
        (fun it : Nat × String =>
          ((clean_reviews reviews [] [] max_reviews).map text_hash).getD it.1 "") := rfl
    have e2 : (clean_reviews reviews [] [] max_reviews).enum.map
        (fun it : Nat × String =>
          ((clean_reviews reviews [] [] max_reviews).map text_hash).getD it.1 "") =
        (run1_flat batch reviews max_reviews batch_size).map (fun it => it.1) := by
      rw [enum_hashes_map, hfst]
    rw [e1, ← List.map_map, e2, List.map_map, List.map_map]
    exact List.map_congr_left (fun it hit => hlook it hit)
  have h2 : analyze_reviews_with_cache
      ((run1_flat batch reviews max_reviews batch_size).foldl
        (fun d it => upsert_cache_row d it.1 MODEL_NAME it.2.1 (it.2.2.take 3) (some 0)) [])
      reviews max_reviews batch_size batch =
      (⟨sumCounter (((run1_flat batch reviews max_reviews batch_size).map
          (fun it => (⟨MODEL_NAME, it.2.1, it.2.2.take 3, some 0⟩ : CacheRow))).foldl
          (fun c r => counterAdd c r.sentiment) []),
        ((run1_flat batch reviews max_reviews batch_size).map
          (fun it => (⟨MODEL_NAME, it.2.1, it.2.2.take 3, some 0⟩ : CacheRow))).foldl
          (fun c r => counterAdd c r.sentiment) [],
        most_common (((run1_flat batch reviews max_reviews batch_size).map
          (fun it => (⟨MODEL_NAME, it.2.1, it.2.2.take 3, some 0⟩ : CacheRow))).foldl
          (fun c r => countReasons c r.reasons) []) 10,
        0,
        (clean_reviews reviews [] [] max_reviews).length - 0⟩,
       (run1_flat batch reviews max_reviews batch_size).foldl
         (fun d it => upsert_cache_row d it.1 MODEL_NAME it.2.1 (it.2.2.take 3) (some 0)) []) := by
    unfold analyze_reviews_with_cache
    dsimp only
    rw [hit_loop_all_some _ _ (clean_reviews reviews [] [] max_reviews).enum
      ((run1_flat batch reviews max_reviews batch_size).map
        (fun it => (⟨MODEL_NAME, it.2.1, it.2.2.take 3, some 0⟩ : CacheRow))) hmapeq _]
    dsimp only
    rw [hit_fold_components]
    rfl
  have hsents : ((run1_flat batch reviews max_reviews batch_size).map
      (fun it => (⟨MODEL_NAME, it.2.1, it.2.2.take 3, some 0⟩ : CacheRow))).foldl
      (fun c r => counterAdd c r.sentiment) [] =
      (run1_flat batch reviews max_reviews batch_size).foldl
        (fun c it => counterAdd c it.2.1) [] := by
    rw [List.foldl_map]
  have hreas : ((run1_flat batch reviews max_reviews batch_size).map
      (fun it => (⟨MODEL_NAME, it.2.1, it.2.2.take 3, some 0⟩ : CacheRow))).foldl
      (fun c r => countReasons c r.reasons) [] =
      (run1_flat batch reviews max_reviews batch_size).foldl
        (fun c it => countReasons c it.2.2) [] := by
    rw [List.foldl_map]
    refine List.foldl_ext _ _ _ (fun c it hit => ?_)
    obtain ⟨texts, i, hpar⟩ :=
      flat_items_parse batch ((clean_reviews reviews [] [] max_reviews).map text_hash)
        (chunkList batch_size (clean_reviews reviews [] [] max_reviews).enum) it hit
    have hlen : it.2.2.length ≤ 3 := by
      rw [show it.2.2 = (parse_output (out_by_idx_get (batch texts) i)).2 from
        congrArg Prod.snd hpar]
      exact h3 texts i
    rw [List.take_of_length_le hlen]
  rw [h1]
  dsimp only
  rw [h2]
  dsimp only
  rw [hsents, hreas]
  exact ⟨rfl, rfl⟩

/-- Witness for the amended C3 at a concrete review list and oracle. -/
theorem C3_cache_idempotence_amended_witness :
    1 ≤ 10 ∧
    ((analyze_reviews_with_cache
        (analyze_reviews_with_cache [] [PyVal.str "good product"] 50 10 (fun _ => [])).2
        [PyVal.str "good product"] 50 10 (fun _ => [])).1.sentiment_distribution =
      (analyze_reviews_with_cache [] [PyVal.str "good product"] 50 10
        (fun _ => [])).1.sentiment_distribution ∧
    (analyze_reviews_with_cache
        (analyze_reviews_with_cache [] [PyVal.str "good product"] 50 10 (fun _ => [])).2
        [PyVal.str "good product"] 50 10 (fun _ => [])).1.top_reasons =
      (analyze_reviews_with_cache [] [PyVal.str "good product"] 50 10
        (fun _ => [])).1.top_reasons) :=
  ⟨by omega,
   C3_cache_idempotence_amended [PyVal.str "good product"] 50 10 (fun _ => [])
     (by omega) (fun texts i => Nat.zero_le 3)⟩

/-- The hit loop adds one sentiment count per hit and one uncached item per
miss: counts plus uncached length grow by the list length. -/
lemma hit_loop_count (db : CacheDB) (hashes : List String) :
    ∀ (l : List (Nat × String)) (p : AggState × List (Nat × String)),
      sumCounter (l.foldl
        (fun (acc : AggState × List (Nat × String)) it =>
          match cacheGet db (hashes.getD it.1 "") with
          | some row => (hit_update acc.1 row, acc.2)
          | Option.none => (acc.1, acc.2 ++ [it])) p).1.sentiments +
      (l.foldl
        (fun (acc : AggState × List (Nat × String)) it =>
          match cacheGet db (hashes.getD it.1 "") with
          | some row => (hit_update acc.1 row, acc.2)
          | Option.none => (acc.1, acc.2 ++ [it])) p).2.length =
      sumCounter p.1.sentiments + p.2.length + l.length := by
  intro l
  induction l with
  | nil => intro p; simp
  | cons x l' ih =>
    intro p
    rw [List.foldl_cons, ih]
    cases hx : cacheGet db (hashes.getD x.1 "") with
    | some row =>
      show sumCounter (counterAdd p.1.sentiments row.sentiment) + p.2.length + l'.length =
        sumCounter p.1.sentiments + p.2.length + (x :: l').length
      rw [sumCounter_counterAdd]
      simp
      omega
    | none =>
      show sumCounter p.1.sentiments + (p.2 ++ [x]).length + l'.length =
        sumCounter p.1.sentiments + p.2.length + (x :: l').length
      simp
      omega

lemma flat_items_length (batch : List String → List PyVal) (hashes : List String)
    (chunks : List (List (Nat × String))) :
    (flat_items batch hashes chunks).length = chunks.flatten.length := by
  unfold flat_items
  rw [List.length_flatten, List.length_flatten, List.map_map]
  congr 1
  refine List.map_congr_left (fun c _ => ?_)
  show (chunk_items batch hashes c).length = c.length
  unfold chunk_items
  rw [List.length_map, List.enum_length]

/-- The aggregation reports exactly one analyzed review per cleaned
(distinct, non-blank) review, for every starting cache. -/
lemma analyze_count (db : CacheDB) (reviews : List PyVal)
    (max_reviews batch_size : Nat) (batch : List String → List PyVal)
    (hbs : 1 ≤ batch_size) :
    (analyze_reviews_with_cache db reviews max_reviews batch_size batch).1.review_count_analyzed =
      (clean_reviews reviews [] [] max_reviews).length := by
  unfold analyze_reviews_with_cache
  dsimp only
  rw [chunks_foldl_eq_flat, flat_fold_components]
  dsimp only
  rw [sents_fold_length, flat_items_length, chunkList_flatten _ hbs]
  have h := hit_loop_count db ((clean_reviews reviews [] [] max_reviews).map text_hash)
    (clean_reviews reviews [] [] max_reviews).enum
    (⟨⟨db, [], []⟩, []⟩ : AggState × List (Nat × String))
  rw [h]
  show 0 + 0 + (clean_reviews reviews [] [] max_reviews).enum.length = _
  rw [List.enum_length]
  omega

/-- C10: the aggregation first discards non-string and whitespace-only
entries and trims the rest, deduplicates by the content hash of the
trimmed text, keeps at most `max_reviews` reviews, reports exactly one
analyzed review per kept review, and ignores appended duplicates
entirely. -/
theorem C10_sentiment_input_dedup (db : CacheDB) (reviews : List PyVal)
    (max_reviews batch_size : Nat) (batch : List String → List PyVal)
    (hmax : 1 ≤ max_reviews) (hbs : 1 ≤ batch_size) :
    (∀ r ∈ clean_reviews reviews [] [] max_reviews,
      r ≠ "" ∧ ∃ s, PyVal.str s ∈ reviews ∧ r = pyStrip s) ∧
    ((clean_reviews reviews [] [] max_reviews).map text_hash).Nodup ∧
    (clean_reviews reviews [] [] max_reviews).length ≤ max_reviews ∧
    (analyze_reviews_with_cache db reviews max_reviews batch_size
        batch).1.review_count_analyzed =
      (clean_reviews reviews [] [] max_reviews).length ∧
    (∀ s : String,
      text_hash (pyStrip s) ∈ (clean_reviews reviews [] [] max_reviews).map text_hash →
      analyze_reviews_with_cache db (reviews ++ [PyVal.str s]) max_reviews batch_size batch =
        analyze_reviews_with_cache db reviews max_reviews batch_size batch) := by
  refine ⟨?_, ?_, ?_, ?_, ?_⟩
  · intro r hr
    rcases clean_reviews_mem reviews [] [] max_reviews r hr with hr | hr
    · cases hr
    · exact hr
  · exact clean_reviews_nodup reviews [] [] max_reviews (by simp) (by simp)
  · exact clean_reviews_length reviews [] [] max_reviews (by simpa using hmax)
  · exact analyze_count db reviews max_reviews batch_size batch hbs
  · intro s hs
    have hcl : clean_reviews (reviews ++ [PyVal.str s]) [] [] max_reviews =
        clean_reviews reviews [] [] max_reviews :=
      clean_reviews_dup reviews s [] [] max_reviews (by simp) (Or.inl hs)
    unfold analyze_reviews_with_cache
    rw [hcl]

/-- Concrete input for the C10 witness: a duplicate (up to trim and case),
a non-string entry, and a whitespace-only entry. -/
def c10Reviews : List PyVal :=
  [PyVal.str "Great!", PyVal.int 3, PyVal.str "  ", PyVal.str " great! "]

/-- Witness for C10: the four-entry list keeps exactly one review, and
appending yet another spelling of it leaves the whole result unchanged. -/
theorem C10_sentiment_input_dedup_witness :
    (analyze_reviews_with_cache [] c10Reviews 50 10 (fun _ => [])).1.review_count_analyzed = 1 ∧
    analyze_reviews_with_cache [] (c10Reviews ++ [PyVal.str "GREAT!"]) 50 10 (fun _ => []) =
      analyze_reviews_with_cache [] c10Reviews 50 10 (fun _ => []) := by
  have h := C10_sentiment_input_dedup [] c10Reviews 50 10 (fun _ => [])
    (by omega) (by omega)
  refine ⟨?_, h.2.2.2.2 "GREAT!" (by decide)⟩
  rw [h.2.2.2.1]
  decide
